import Mathlib

/-!
# go-ssh-forward: validation, bootstrap and accept loop

A shallow embedding of `validators.go` and `forward.go`.

* Go pointers that may be nil are `Option`; a slice that may be nil is an optional list.
* Go `error` values are `GoError`; `fmt.Errorf("...: %w", err)` is `errorf`.
* Calls that leave the process (file reads, dials, listens, accepts, deadline calls, channel
  sends, closes, goroutine starts) are recorded in an event trace; what the outside world
  answers to such a call is taken from an environment record, over which the theorems
  quantify.
* The other goroutines are part of the outside world of `run`: the caller, who may call `Stop`
  and who receives from `forwardErrors` or does not, and the copying goroutines, which may exit
  the process.
-/

namespace GoSSHForward

/-! ## Errors -/

/-- A Go `error` value: `new` is `errors.New` (or an error produced by a library), `wrap` is an
error made by `fmt.Errorf` with a `%w` verb, carrying its formatted text and the wrapped cause. -/
inductive GoError where
  | new (msg : String)
  | wrap (msg : String) (cause : GoError)
deriving DecidableEq, Repr

namespace GoError

/-- The `Error()` method: the text of the error. -/
def Error : GoError → String
  | .new m => m
  | .wrap m _ => m

end GoError

/-- The call `fmt.Errorf(pre + "%w", cause)`: the text is `pre` followed by the text of the cause. -/
def errorf (pre : String) (cause : GoError) : GoError :=
  .wrap (pre ++ cause.Error) cause

/-- The test helper's `strings.Contains(s, sub)`. -/
def strContains (s sub : String) : Bool :=
  s.toList.tails.any (fun t => sub.toList.isPrefixOf t)

def ErrJumpHostsNotSupportd : GoError := .new "only 1 jump host is supported atm"
def ErrLocalAndRemoteAddressUnset : GoError := .new "localAddress and RemoteAddress have to be set"
def ErrSSHConfigUnset : GoError := .new "SSHConfig cannot be nil"
def ErrUserEmpty : GoError := .new "user cannot be empty"
def ErrAddressEmpty : GoError := .new "address cannot be empty"
def ErrPrivateKeyFileAndPasswordUnset : GoError :=
  .new "either PrivateKeyFile or Password has to be set"
def ErrConfigIsNil : GoError := .new "Config cannot be nil"

/-! ## Configuration -/

/-- The struct `SSHConfig`. -/
structure SSHConfig where
  Address : String
  User : String
  PrivateKeyFile : String
  Password : String
deriving DecidableEq, Repr

/-- A Go slice: `none` is the nil slice, `some xs` a non-nil slice with elements `xs`. -/
abbrev GoSlice (α : Type) := Option (List α)

/-- The elements a `range` over the slice visits; `len` is the length of this list. -/
def GoSlice.elems {α : Type} : GoSlice α → List α
  | none => []
  | some xs => xs

/-- The builtin `len` on a slice. -/
def GoSlice.len {α : Type} (s : GoSlice α) : Nat := s.elems.length

/-- The struct `Config`; the `*SSHConfig` pointers may be nil. -/
structure Config where
  JumpHostConfigs : GoSlice (Option SSHConfig)
  EndHostConfig : Option SSHConfig
  LocalAddress : String
  RemoteAddress : String
deriving DecidableEq, Repr

/-! ## validators.go -/

/-- The function `checkSSHConfig`; the result `none` is the nil error. -/
def checkSSHConfig (sshConfig : Option SSHConfig) : Option GoError :=
  match sshConfig with
  | none => some ErrSSHConfigUnset
  | some c =>
    if c.User = "" then some ErrUserEmpty
    else if c.Address = "" then some ErrAddressEmpty
    else if c.PrivateKeyFile = "" ∧ c.Password = "" then some ErrPrivateKeyFileAndPasswordUnset
    else none

/-- The `for ... range config.JumpHostConfigs` loop of `checkConfig`: it returns the first error
that `checkSSHConfig` gives. -/
def checkJumpHosts : List (Option SSHConfig) → Option GoError
  | [] => none
  | jumpConfig :: rest =>
    match checkSSHConfig jumpConfig with
    | some err => some err
    | none => checkJumpHosts rest

/-- The function `checkConfig`; the result `none` is the nil error. -/
def checkConfig (config : Option Config) : Option GoError :=
  match config with
  | none => some ErrConfigIsNil
  | some config =>
    if config.JumpHostConfigs.len > 1 then some ErrJumpHostsNotSupportd
    else
      match checkJumpHosts config.JumpHostConfigs.elems with
      | some err => some err
      | none =>
        match checkSSHConfig config.EndHostConfig with
        | some err => some err
        | none =>
          if config.LocalAddress = "" ∨ config.RemoteAddress = "" then
            some ErrLocalAndRemoteAddressUnset
          else none

/-! ## The validator's contract, in the words of the specification -/

/-- A hop is well formed: it is present, user and address are non-empty, and at least one of the
key file and the password is non-empty. -/
def HopOk (h : Option SSHConfig) : Prop :=
  ∃ c, h = some c ∧ c.User ≠ "" ∧ c.Address ≠ "" ∧ (c.PrivateKeyFile ≠ "" ∨ c.Password ≠ "")

/-- A config is well formed: it is present, has at most one jump host, every jump host and the end
host are well-formed hops, and the local and the remote address are non-empty. -/
def WellFormed (config : Option Config) : Prop :=
  ∃ c, config = some c ∧ c.JumpHostConfigs.len ≤ 1 ∧
    (∀ j ∈ c.JumpHostConfigs.elems, HopOk j) ∧ HopOk c.EndHostConfig ∧
    c.LocalAddress ≠ "" ∧ c.RemoteAddress ≠ ""

/-- The hops of a config in checking order: the jump hosts, then the end host. -/
def hops (c : Config) : List (Option SSHConfig) :=
  c.JumpHostConfigs.elems ++ [c.EndHostConfig]

/-! ## The ssh library's values -/

/-- The contents of a file, as `os.ReadFile` returns them. -/
abbrev Bytes := List Nat

/-- A parsed private key (`ssh.Signer`). -/
structure Signer where
  id : Nat
deriving DecidableEq, Repr

/-- A live SSH session (`*ssh.Client`). -/
structure Client where
  id : Nat
deriving DecidableEq, Repr

/-- A connection (`net.Conn`): a local TCP connection or a channel of an SSH session. -/
structure Conn where
  id : Nat
deriving DecidableEq, Repr

/-- A bound local socket (`net.Listener`). -/
structure Listener where
  id : Nat
deriving DecidableEq, Repr

/-- A channel made by `make(chan ...)`. -/
structure Chan where
  id : Nat
deriving DecidableEq, Repr

/-- An `ssh.AuthMethod`: `ssh.PublicKeys(keys...)` or `ssh.Password(secret)`. -/
inductive AuthMethod where
  | publicKeys (keys : List Signer)
  | password (secret : String)
deriving DecidableEq, Repr

/-- The host key callbacks the program uses: only `ssh.InsecureIgnoreHostKey()`. -/
inductive HostKeyCallback where
  | insecureIgnoreHostKey
deriving DecidableEq, Repr

/-- The fields of `ssh.ClientConfig` that the program sets; `Timeout` is in nanoseconds. -/
structure ClientConfig where
  User : String
  Auth : List AuthMethod
  HostKeyCallback : HostKeyCallback
  Timeout : Nat
deriving DecidableEq, Repr

/-- The result of a call that returns a value or an error. -/
inductive Res (α : Type) where
  | ok (a : α)
  | err (e : GoError)
deriving DecidableEq, Repr

/-- The constant `time.Second`, in nanoseconds. -/
def second : Nat := 1000000000

def readDeadline : Nat := 30
def writeDeadline : Nat := 30
def connectionTimeout : Nat := 8 * second
def ErrDialFromJumpToJumphostFailed : GoError :=
  .new "ssh.Dial from jump host to next jump failed after timeout"

/-! ## Events -/

/-- What the program does to the outside world, in the order it does it. Calls made by the
accept loop carry the answer they got. -/
inductive Event where
  | readFile (file : String)
  | sshDial (addr : String) (config : ClientConfig)
  | goClientDial (client : Client) (addr : String)
  | newClientConn (c : Conn) (addr : String) (config : ClientConfig)
  | netListen (addr : String)
  | goRun (sshClient : Client) (localListener : Listener)
  | clientDial (sshClient : Client) (addr : String) (r : Res Conn)
  | setReadDeadline (c : Conn) (fromNow : Nat) (r : Option GoError)
  | setWriteDeadline (c : Conn) (fromNow : Nat) (r : Option GoError)
  | accept (l : Listener) (r : Res Conn)
  | send (err : GoError)
  | goCopy (dst src : Conn)
  | connClose (c : Conn)
  | listenerClose (l : Listener)
  | clientClose (c : Client)
deriving DecidableEq, Repr

/-! ## forward.go: bootstrap -/

/-- How the dial that `dialNextJump` starts in a goroutine ends, seen from the `select` that
races it against `time.After(connectionTimeout)`. -/
inductive JumpDial where
  | connected (c : Conn)
  | failed (err : GoError)
  | timedOut
deriving DecidableEq, Repr

/-- The answers of the outside world during `NewForward`. `parsePrivateKey` is
`ssh.ParsePrivateKey`; `newClientConn` is `ssh.NewClientConn` followed by `ssh.NewClient`. -/
structure BootEnv where
  readFile : String → Res Bytes
  parsePrivateKey : Bytes → Res Signer
  sshDial : String → ClientConfig → Res Client
  jumpDial : Client → String → JumpDial
  newClientConn : Conn → String → ClientConfig → Res Client
  netListen : String → Res Listener

/-- The struct `Forward`; `config` is set from a checked, non-nil pointer. -/
structure Forward where
  quit : Chan
  config : Config
  forwardErrors : Chan
deriving DecidableEq, Repr

/-- The function `publicKeyFile`. It takes the events so far and returns them extended. -/
def publicKeyFile (env : BootEnv) (file : String) (tr : List Event) :
    Res AuthMethod × List Event :=
  let tr := tr ++ [.readFile file]
  match env.readFile file with
  | .err err => (.err (errorf ("failed to read file '" ++ file ++ "': ") err), tr)
  | .ok buffer =>
    match env.parsePrivateKey buffer with
    | .err err =>
      (.err (errorf ("failed to parse private key from file '" ++ file ++ "': ") err), tr)
    | .ok key => (.ok (.publicKeys [key]), tr)

/-- The function `convertToSSHConfig`, on a non-nil `*SSHConfig`. -/
def convertToSSHConfig (env : BootEnv) (toConvert : SSHConfig) (tr : List Event) :
    Res ClientConfig × List Event :=
  let config : ClientConfig :=
    { User := toConvert.User, Auth := [], HostKeyCallback := .insecureIgnoreHostKey,
      Timeout := connectionTimeout }
  if toConvert.PrivateKeyFile ≠ "" then
    match publicKeyFile env toConvert.PrivateKeyFile tr with
    | (.err err, tr) => (.err err, tr)
    | (.ok publicKey, tr) => (.ok { config with Auth := [publicKey] }, tr)
  else
    (.ok { config with Auth := [.password toConvert.Password] }, tr)

/-- The method `dialNextJump`. The goroutine's dial either hands over a connection before the
timeout, or the timer fires first: a failed dial blocks on the send to `forwardErrors`, which
has no receiver while `NewForward` runs. -/
def dialNextJump (env : BootEnv) (jumpHostClient : Client) (nextJumpAddress : String)
    (tr : List Event) : Res Conn × List Event :=
  let tr := tr ++ [.goClientDial jumpHostClient nextJumpAddress]
  match env.jumpDial jumpHostClient nextJumpAddress with
  | .connected jumpHostConn => (.ok jumpHostConn, tr)
  | .failed _ => (.err ErrDialFromJumpToJumphostFailed, tr)
  | .timedOut => (.err ErrDialFromJumpToJumphostFailed, tr)

/-- What a call does: it returns, or it panics (nil pointer dereference, index out of range). -/
inductive Ran (α : Type) where
  | returns (a : α)
  | panics
deriving DecidableEq, Repr

/-- The method `buildSSHClient`. -/
def buildSSHClient (env : BootEnv) (f : Forward) (tr : List Event) :
    Ran (Res Client) × List Event :=
  match f.config.EndHostConfig with
  | none => (.panics, tr)
  | some endHost =>
    match convertToSSHConfig env endHost tr with
    | (.err err, tr) => (.returns (.err (errorf "failed to parse end host config: " err)), tr)
    | (.ok endHostConfig, tr) =>
      if f.config.JumpHostConfigs.len > 0 then
        match f.config.JumpHostConfigs.elems.head? with
        | none => (.panics, tr)
        | some none => (.panics, tr)
        | some (some jumpHost) =>
          match convertToSSHConfig env jumpHost tr with
          | (.err err, tr) =>
            (.returns (.err (errorf "failed to parse jump host config: " err)), tr)
          | (.ok jumpHostConfig, tr) =>
            let tr := tr ++ [.sshDial jumpHost.Address jumpHostConfig]
            match env.sshDial jumpHost.Address jumpHostConfig with
            | .err err => (.returns (.err (errorf "ssh.Dial to jump host failed: " err)), tr)
            | .ok jumpHostClient =>
              match dialNextJump env jumpHostClient endHost.Address tr with
              | (.err err, tr) =>
                (.returns (.err (errorf "ssh.Dial from jump to jump host failed: " err)), tr)
              | (.ok jumpHostConn, tr) =>
                let tr := tr ++ [.newClientConn jumpHostConn endHost.Address endHostConfig]
                match env.newClientConn jumpHostConn endHost.Address endHostConfig with
                | .err err =>
                  (.returns (.err (errorf "failed to create ssh client to end host: " err)),
                    tr ++ [.connClose jumpHostConn])
                | .ok client => (.returns (.ok client), tr)
      else
        let tr := tr ++ [.sshDial endHost.Address endHostConfig]
        match env.sshDial endHost.Address endHostConfig with
        | .err err =>
          (.returns (.err (errorf "ssh.Dial directly to end host failed: " err)), tr)
        | .ok endHostClient => (.returns (.ok endHostClient), tr)

/-- The method `bootstrap`. -/
def bootstrap (env : BootEnv) (f : Forward) (tr : List Event) :
    Ran (Res (Client × Listener)) × List Event :=
  match buildSSHClient env f tr with
  | (.panics, tr) => (.panics, tr)
  | (.returns (.err err), tr) =>
    (.returns (.err (errorf "failed to build SSH client: " err)), tr)
  | (.returns (.ok sshClient), tr) =>
    let tr := tr ++ [.netListen f.config.LocalAddress]
    match env.netListen f.config.LocalAddress with
    | .err err => (.returns (.err (errorf "net.Listen failed: " err)), tr)
    | .ok localListener => (.returns (.ok (sshClient, localListener)), tr)

/-- The three results of `NewForward`: `(*Forward, chan error, error)`. -/
structure Triple where
  forward : Option Forward
  errors : Option Chan
  err : Option GoError
deriving DecidableEq, Repr

/-- The function `NewForward`, with the events of the call. The accept loop it starts with
`go t.run(...)` is the event `goRun`; the loop itself is `run` below. -/
def NewForward (env : BootEnv) (config : Option Config) : Ran Triple × List Event :=
  match checkConfig config with
  | some err => (.returns ⟨none, none, some err⟩, [])
  | none =>
    match config with
    | none => (.panics, [])
    | some cfg =>
      let forwardErrors : Chan := ⟨0⟩
      let t : Forward := { quit := ⟨1⟩, config := cfg, forwardErrors := forwardErrors }
      match bootstrap env t [] with
      | (.panics, tr) => (.panics, tr)
      | (.returns (.err err), tr) => (.returns ⟨none, none, some err⟩, tr)
      | (.returns (.ok (sshClient, localListener)), tr) =>
        (.returns ⟨some t, some forwardErrors, none⟩, tr ++ [.goRun sshClient localListener])

/-! ## forward.go: the accept loop -/

/-- How far a call of `Stop` has got: not called; `close(f.quit)` done; `close(f.forwardErrors)`
done as well. -/
inductive StopState where
  | live
  | quitClosed
  | stopped
deriving DecidableEq, Repr

/-- The method `Stop`, from the state the two channels are in: `close(f.quit)`, then
`close(f.forwardErrors)`; closing a closed channel panics. -/
def Stop : StopState → Ran StopState
  | .live => .returns .stopped
  | .quitClosed => .panics
  | .stopped => .panics

/-- The places of one loop iteration at which the state of the two channels matters: the six
sends on `f.forwardErrors`, the `select` on `f.quit`, and `accept`, the return of `Accept`, at
which the loop touches no channel. -/
inductive Point where
  | dialErr
  | endRead
  | endWrite
  | accept
  | acceptErr
  | localRead
  | localWrite
  | select
deriving DecidableEq, Repr

/-- The answers of the outside world in one iteration of the loop: the results of the calls; how
far `Stop` has got when the loop is at each point; and, for each send, whether the caller
receives from `forwardErrors` what is sent there (the channel is unbuffered: with no receiver the
send blocks). -/
structure IterEnv where
  dial : Res Conn
  endSetReadDeadline : Option GoError
  endSetWriteDeadline : Option GoError
  accept : Res Conn
  localSetReadDeadline : Option GoError
  localSetWriteDeadline : Option GoError
  stop : Point → StopState
  received : Point → Bool

/-- A deferred call of `run`: the closure deferred first, or a deferred `Close` on a connection. -/
inductive Deferred where
  | closeListenerAndClient (localListener : Listener) (sshClient : Client)
  | closeConn (c : Conn)
deriving DecidableEq, Repr

/-- The state of `run` between two iterations: the events so far, the stack of deferred calls
(last deferred first) and the local variable `jumpCount`. -/
structure LoopState where
  trace : List Event
  deferred : List Deferred
  jumpCount : Nat
deriving DecidableEq, Repr

/-- Appends an event. -/
def LoopState.log (st : LoopState) (e : Event) : LoopState :=
  { st with trace := st.trace ++ [e] }

/-- Pushes a deferred call. -/
def LoopState.defer (st : LoopState) (d : Deferred) : LoopState :=
  { st with deferred := d :: st.deferred }

/-- How one iteration ends: with the next iteration, with `return`, with a panic, or blocked
for ever in a send that nobody receives. -/
inductive Step where
  | next (st : LoopState)
  | ret (st : LoopState)
  | panic (st : LoopState)
  | blocked (st : LoopState)
deriving DecidableEq, Repr

/-- The statement `f.forwardErrors <- err`, followed by `k`. A send on the closed channel panics
(also when the channel is closed while the send is waiting); on the open channel the send
completes when the caller receives, and blocks for ever when the caller does not. The event
`send` is a completed send. -/
def sendErr (s : StopState) (received : Bool) (err : GoError) (st : LoopState)
    (k : LoopState → Step) : Step :=
  if s = .stopped then .panic st
  else if received then k (st.log (.send err))
  else .blocked st

/-- The statement `if err = ...; err != nil { f.forwardErrors <- fmt.Errorf(pre + "%w", err) }`
for the result `r` of the call, followed by `k`. -/
def reportIf (r : Option GoError) (s : StopState) (received : Bool) (pre : String)
    (st : LoopState) (k : LoopState → Step) : Step :=
  match r with
  | none => k st
  | some err => sendErr s received (errorf pre err) st k

/-- The method `buildLocalConnection`. -/
def buildLocalConnection (localListener : Listener) (o : IterEnv) (st : LoopState) :
    Res Conn × LoopState :=
  let st := st.log (.accept localListener o.accept)
  match o.accept with
  | .err err => (.err (errorf "failed to listen to local address: " err), st)
  | .ok localConn => (.ok localConn, st)

/-- The body of a copying goroutine of `handleForward`, for the result of its `io.Copy`: nil
ends the goroutine; an error makes `log.Fatalf` exit the process with the returned message.
`toRemote` tells the goroutine copying from the local connection to the end host channel from
the one copying back. -/
def copyGoroutine (toRemote : Bool) (copyResult : Option GoError) : Option String :=
  match copyResult with
  | none => none
  | some err =>
    if toRemote then some ("io.Copy from localAddress -> remoteAddress failed: " ++ err.Error)
    else some ("io.Copy from remoteAddress -> localAddress failed: " ++ err.Error)

/-- The method `handleForward`: it starts the two copying goroutines, whose bodies are
`copyGoroutine`; what they do to the process is in `process` below. -/
def handleForward (localConn sshConn : Conn) (st : LoopState) : LoopState :=
  (st.log (.goCopy sshConn localConn)).log (.goCopy localConn sshConn)

/-- The body of the `for` loop of `run`. -/
def iteration (f : Forward) (sshClient : Client) (localListener : Listener) (o : IterEnv)
    (st : LoopState) : Step :=
  let st := st.log (.clientDial sshClient f.config.RemoteAddress o.dial)
  match o.dial with
  | .err err =>
    sendErr (o.stop .dialErr) (o.received .dialErr)
      (errorf ("failed to connect on end host to docker daemon at '" ++
        f.config.RemoteAddress ++ "': ") err) st .ret
  | .ok endHostConn =>
    let st := st.log (.setReadDeadline endHostConn (readDeadline * second) o.endSetReadDeadline)
    reportIf o.endSetReadDeadline (o.stop .endRead) (o.received .endRead)
      "failed to set read deadline on end host connection: " st fun st =>
    let st :=
      st.log (.setWriteDeadline endHostConn (writeDeadline * second) o.endSetWriteDeadline)
    reportIf o.endSetWriteDeadline (o.stop .endWrite) (o.received .endWrite)
      "failed to set write deadline on end host connection: " st fun st =>
    let st := st.defer (.closeConn endHostConn)
    match buildLocalConnection localListener o st with
    | (.err err, st) =>
      sendErr (o.stop .acceptErr) (o.received .acceptErr)
        (errorf "failed to build the local connection: " err) st .ret
    | (.ok localConn, st) =>
      let st :=
        st.log (.setReadDeadline localConn (readDeadline * second) o.localSetReadDeadline)
      reportIf o.localSetReadDeadline (o.stop .localRead) (o.received .localRead)
        "failed to set read deadline on local connection: " st fun st =>
      let st :=
        st.log (.setWriteDeadline localConn (writeDeadline * second) o.localSetWriteDeadline)
      reportIf o.localSetWriteDeadline (o.stop .localWrite) (o.received .localWrite)
        "failed to set write deadline on local connection: " st fun st =>
      let st := st.defer (.closeConn localConn)
      match o.localSetWriteDeadline with
      | some _ => if o.stop .select = .live then .next st else .ret st
      | none =>
        let st := handleForward localConn endHostConn st
        .next { st with jumpCount := st.jumpCount + 1 }

/-- The events of the deferred calls, run last deferred first. -/
def runDeferred : List Deferred → List Event
  | [] => []
  | .closeConn c :: rest => .connClose c :: runDeferred rest
  | .closeListenerAndClient l c :: rest => .listenerClose l :: .clientClose c :: runDeferred rest

/-- What is known of a call of `run` after some iterations: it is still in the loop, it is
blocked for ever in a send, it has returned, or it has panicked; in the last two cases the
deferred calls have run. -/
inductive RunResult where
  | looping (st : LoopState)
  | blocked (st : LoopState)
  | returned (trace : List Event)
  | panicked (trace : List Event)
deriving DecidableEq, Repr

/-- The `for` loop of `run`, for at most `fuel` iterations, the next one being iteration `k`. -/
def loop (f : Forward) (sshClient : Client) (localListener : Listener) (env : Nat → IterEnv) :
    Nat → Nat → LoopState → RunResult
  | 0, _, st => .looping st
  | fuel + 1, k, st =>
    match iteration f sshClient localListener (env k) st with
    | .next st => loop f sshClient localListener env fuel (k + 1) st
    | .ret st => .returned (st.trace ++ runDeferred st.deferred)
    | .panic st => .panicked (st.trace ++ runDeferred st.deferred)
    | .blocked st => .blocked st

/-- The state in which `run` enters its loop. -/
def initState (sshClient : Client) (localListener : Listener) : LoopState :=
  { trace := [], deferred := [.closeListenerAndClient localListener sshClient], jumpCount := 1 }

/-- The method `run`, for at most `fuel` iterations of its loop. -/
def run (f : Forward) (sshClient : Client) (localListener : Listener) (env : Nat → IterEnv)
    (fuel : Nat) : RunResult :=
  loop f sshClient localListener env fuel 0 (initState sshClient localListener)

/-- The events of a call of `run`, as far as it is known. -/
def RunResult.events : RunResult → List Event
  | .looping st => st.trace
  | .blocked st => st.trace
  | .returned trace => trace
  | .panicked trace => trace

/-- The first `io.Copy` of a copying goroutine to return an error: it does so when `run` has
made `after` events, in the goroutine of the given direction. -/
structure CopyFailure where
  after : Nat
  toRemote : Bool
  err : GoError
deriving DecidableEq, Repr

/-- Whether the event starts a copying goroutine. -/
def Event.isGoCopy : Event → Bool
  | .goCopy _ _ => true
  | _ => false

/-- What is known of the process after some iterations of `run`: what `run` has done, or the
exit of the process by `log.Fatalf` in a copying goroutine, with the events of `run` up to
then. -/
inductive ProcResult where
  | ran (r : RunResult)
  | exited (trace : List Event) (message : String)
deriving DecidableEq, Repr

/-- The goroutine `run` next to the copying goroutines that it starts. With no failing copy the
process does what `run` does. A copy that fails once a copying goroutine has been started, and
before the events of `run` known so far are over, exits the process there. -/
def process (f : Forward) (sshClient : Client) (localListener : Listener) (env : Nat → IterEnv)
    (copy : Option CopyFailure) (fuel : Nat) : ProcResult :=
  let r := run f sshClient localListener env fuel
  match copy with
  | none => .ran r
  | some c =>
    match copyGoroutine c.toRemote (some c.err) with
    | none => .ran r
    | some message =>
      if c.after < r.events.length ∧ (r.events.take c.after).any Event.isGoCopy then
        .exited (r.events.take c.after) message
      else .ran r

/-! ## The configs of forward_test.go -/

/-- The end host of the tests, with the given key file and password. -/
def testEndHost (privateKeyFile password : String) : SSHConfig :=
  { Address := "20.0.0.1:22", User := "endhostuser", PrivateKeyFile := privateKeyFile,
    Password := password }

/-- The helper `createConfigBase`. -/
def createConfigBase (jumpHostAddress jumpHostUser jumpHostPrivateKeyFile jumpHostPassword
    localAddress remoteAddress : String) : Config :=
  { JumpHostConfigs := some [some
      { Address := jumpHostAddress, User := jumpHostUser,
        PrivateKeyFile := jumpHostPrivateKeyFile, Password := jumpHostPassword }],
    EndHostConfig := some (testEndHost "./testing/rsa_keys/id_rsa_end_host" ""),
    LocalAddress := localAddress,
    RemoteAddress := remoteAddress }

/-- The helper `createConfig`. -/
def createConfig (jumpHostAddress jumpHostUser jumpHostPrivateKeyFile jumpHostPassword : String) :
    Config :=
  createConfigBase jumpHostAddress jumpHostUser jumpHostPrivateKeyFile jumpHostPassword
    "localhost:2376" "localhost:2376"

/-- The helper `createForwardWithoutJump`. -/
def createForwardWithoutJump (localAddress remoteAddress : String) : Config :=
  { JumpHostConfigs := some [],
    EndHostConfig := some (testEndHost "" "endhostuserpass"),
    LocalAddress := localAddress,
    RemoteAddress := remoteAddress }

/-- The config of `TestConfigTooManyJumpHosts`. -/
def tooManyJumpHosts : Config :=
  { JumpHostConfigs := some [
      some { Address := "10.0.0.1:22", User := "jumpuser1",
             PrivateKeyFile := "./testing/rsa_keys/id_rsa_jump_host1", Password := "" },
      some { Address := "10.0.0.2:22", User := "jumpuser2",
             PrivateKeyFile := "./testing/rsa_keys/id_rsa_jump_host2", Password := "" }],
    EndHostConfig := some (testEndHost "./testing/rsa_keys/id_rsa_end_host" ""),
    LocalAddress := "localhost:2376",
    RemoteAddress := "localhost:2376" }

/-- The config of `TestConfigEmptyJumpHosts` (a nil jump host slice), with the given key file
for the end host. -/
def emptyJumpHosts (privateKeyFile : String) : Config :=
  { JumpHostConfigs := none,
    EndHostConfig := some (testEndHost privateKeyFile ""),
    LocalAddress := "localhost:2376",
    RemoteAddress := "localhost:2376" }

/-- A hop with both a key file and a password. -/
def bothCredentials : SSHConfig :=
  { Address := "10.0.0.1:22", User := "jumpuser", PrivateKeyFile := "./key", Password := "mypwd" }

/-! ## Environments for the test configs -/

/-- A machine with no key files and no reachable host: every read and every dial fails. -/
def offlineEnv : BootEnv :=
  { readFile := fun file => .err (.new ("open " ++ file ++ ": no such file or directory")),
    parsePrivateKey := fun _ => .err (.new "ssh: no key found"),
    sshDial := fun addr _ => .err (.new ("dial tcp " ++ addr ++ ": i/o timeout")),
    jumpDial := fun _ _ => .timedOut,
    newClientConn := fun _ _ _ => .err (.new "ssh: handshake failed"),
    netListen := fun _ => .ok ⟨0⟩ }

/-- A machine on which the key files can be read and parsed, with no reachable host. -/
def keysEnv : BootEnv :=
  { offlineEnv with
    readFile := fun _ => .ok [45, 45, 45, 45, 45],
    parsePrivateKey := fun _ => .ok ⟨7⟩ }

/-- A machine on which the key files can be read and are no private keys, with no reachable
host. -/
def badKeyEnv : BootEnv :=
  { offlineEnv with readFile := fun _ => .ok [110, 111] }

/-! ## Vocabulary and environments for the accept loop -/

/-- The events of one guarded report: nothing when the call returned nil, one send of the
wrapped error when it failed. -/
def reported (r : Option GoError) (pre : String) : List Event :=
  match r with
  | none => []
  | some err => [.send (errorf pre err)]

/-- The events of one iteration up to the call of `Accept`, when the dial gave `endHostConn`
and the channels are open. -/
def eventsToAccept (f : Forward) (sshClient : Client) (o : IterEnv) (endHostConn : Conn) :
    List Event :=
  [.clientDial sshClient f.config.RemoteAddress (.ok endHostConn),
   .setReadDeadline endHostConn (30 * second) o.endSetReadDeadline] ++
  reported o.endSetReadDeadline "failed to set read deadline on end host connection: " ++
  [.setWriteDeadline endHostConn (30 * second) o.endSetWriteDeadline] ++
  reported o.endSetWriteDeadline "failed to set write deadline on end host connection: "

/-- The events of one iteration from the accepted connection `localConn` to the end of the two
deadline calls on it, when the channels are open. -/
def eventsAfterAccept (localListener : Listener) (o : IterEnv) (localConn : Conn) :
    List Event :=
  [.accept localListener (.ok localConn),
   .setReadDeadline localConn (30 * second) o.localSetReadDeadline] ++
  reported o.localSetReadDeadline "failed to set read deadline on local connection: " ++
  [.setWriteDeadline localConn (30 * second) o.localSetWriteDeadline] ++
  reported o.localSetWriteDeadline "failed to set write deadline on local connection: "

/-- The events of the relay for a pair: the two copying goroutines. -/
def relayEvents (localConn endHostConn : Conn) : List Event :=
  [.goCopy endHostConn localConn, .goCopy localConn endHostConn]

/-- An outside world in which every call of the loop succeeds, iteration `k` getting the
connections `2 * k` and `2 * k + 1`, and in which `Stop` has got as far as `s` throughout. -/
def allOk (s : StopState) : Nat → IterEnv := fun k =>
  { dial := .ok ⟨2 * k⟩,
    endSetReadDeadline := none,
    endSetWriteDeadline := none,
    accept := .ok ⟨2 * k + 1⟩,
    localSetReadDeadline := none,
    localSetWriteDeadline := none,
    stop := fun _ => s,
    received := fun _ => true }

/-- As `allOk`, with every dial of the remote address failing. -/
def dialFails (s : StopState) : Nat → IterEnv := fun k =>
  { allOk s k with dial := .err (.new "ssh: rejected: connect failed (Connection refused)") }

/-- The error of every deadline call on a channel of the ssh library (`golang.org/x/crypto/ssh`
has no deadlines on channels). -/
def tcpChanDeadline : GoError := .new "ssh: tcpChan: deadline not supported"

/-- The outside world as the ssh library and TCP make it: every dial and every accept succeeds,
iteration `k` getting the connections `2 * k` and `2 * k + 1`; both deadline calls on the end
host channel fail, both on the local connection succeed; the caller receives every send; `Stop`
has got as far as `s` throughout. -/
def tcpChanWorld (s : StopState) : Nat → IterEnv := fun k =>
  { allOk s k with
    endSetReadDeadline := some tcpChanDeadline,
    endSetWriteDeadline := some tcpChanDeadline }

/-- The world `tcpChanWorld` in which the caller calls `Stop` while `run` waits in the first
`Accept`: the two sends before it find the channels open, and from the return of that `Accept`
on both channels are closed. -/
def stopDuringAccept : Nat → IterEnv
  | 0 =>
    { tcpChanWorld .live 0 with
      stop := fun p =>
        match p with
        | .dialErr => .live
        | .endRead => .live
        | .endWrite => .live
        | _ => .stopped }
  | k + 1 => tcpChanWorld .stopped (k + 1)

/-- As `stopDuringAccept`, with the first `Accept` failing after the call of `Stop`. -/
def acceptFailsAfterStop : Nat → IterEnv := fun k =>
  { stopDuringAccept k with
    accept := .err (.new "accept tcp 127.0.0.1:2376: too many open files") }

/-- The world `tcpChanWorld` with `Stop` not called, in which the write deadline call on every
local connection fails. -/
def localWriteDeadlineFails : Nat → IterEnv := fun k =>
  { tcpChanWorld .live k with
    localSetWriteDeadline := some (.new "set tcp 127.0.0.1:2376: use of closed network connection") }

/-- As `localWriteDeadlineFails`, with the caller calling `Stop` in every iteration after the
last send and before the `select`. -/
def stopBeforeSelect : Nat → IterEnv := fun k =>
  { localWriteDeadlineFails k with
    stop := fun p =>
      match p with
      | .select => .stopped
      | _ => .live }

/-- The world `tcpChanWorld` with `Stop` not called, in which the caller never receives from
`forwardErrors`. -/
def nobodyReceives : Nat → IterEnv := fun k =>
  { tcpChanWorld .live k with received := fun _ => false }

/-- The send at point `p`, made when the call with result `r` has failed, completes: the call
has not failed, or the channel is open and the caller receives. -/
def SendCompletes (o : IterEnv) (p : Point) (r : Option GoError) : Prop :=
  r = none ∨ (o.stop p ≠ .stopped ∧ o.received p = true)

/-- The events of one iteration in which the dial gives `endHostConn`, `Accept` gives
`localConn` and every send completes: the calls, one send for each failed deadline call, and
the two copying goroutines when the write deadline call on the local connection returned nil. -/
def iterationEvents (f : Forward) (sshClient : Client) (localListener : Listener) (o : IterEnv)
    (endHostConn localConn : Conn) : List Event :=
  eventsToAccept f sshClient o endHostConn ++ eventsAfterAccept localListener o localConn ++
    (if o.localSetWriteDeadline.isNone then relayEvents localConn endHostConn else [])

/-- The events of the `n` iterations from iteration `k` on, iteration `j` getting the
connections `endHostConn j` and `localConn j`. -/
def runEvents (f : Forward) (sshClient : Client) (localListener : Listener) (env : Nat → IterEnv)
    (endHostConn localConn : Nat → Conn) : Nat → Nat → List Event
  | _, 0 => []
  | k, n + 1 =>
    iterationEvents f sshClient localListener (env k) (endHostConn k) (localConn k) ++
      runEvents f sshClient localListener env endHostConn localConn (k + 1) n

/-- The events of the first iteration in the world `tcpChanWorld`: the channel is opened, its
two deadline errors are sent, a local connection is accepted and handed to the relay. -/
def firstPairEvents (f : Forward) (sshClient : Client) (localListener : Listener) : List Event :=
  [.clientDial sshClient f.config.RemoteAddress (.ok ⟨0⟩),
   .setReadDeadline ⟨0⟩ (30 * second) (some tcpChanDeadline),
   .send (errorf "failed to set read deadline on end host connection: " tcpChanDeadline),
   .setWriteDeadline ⟨0⟩ (30 * second) (some tcpChanDeadline),
   .send (errorf "failed to set write deadline on end host connection: " tcpChanDeadline),
   .accept localListener (.ok ⟨1⟩),
   .setReadDeadline ⟨1⟩ (30 * second) none,
   .setWriteDeadline ⟨1⟩ (30 * second) none,
   .goCopy ⟨0⟩ ⟨1⟩,
   .goCopy ⟨1⟩ ⟨0⟩]

/-- As `allOk`, with every `Accept` failing. -/
def acceptFails (s : StopState) : Nat → IterEnv := fun k =>
  { allOk s k with accept := .err (.new "accept tcp 127.0.0.1:2376: too many open files") }

/-- The connections an event opens: the result of a successful dial or accept of the loop. -/
def Event.opens : Event → List Conn
  | .clientDial _ _ (.ok c) => [c]
  | .accept _ (.ok c) => [c]
  | _ => []

/-- The connections opened in a trace, in order. -/
def opened : List Event → List Conn
  | [] => []
  | ev :: rest => ev.opens ++ opened rest

/-- The deferred calls of `run` match the trace: a `Close` is deferred for every connection
opened so far, the last opened on top, above the closure deferred first. -/
def DefersMatch (sshClient : Client) (localListener : Listener) (st : LoopState) : Prop :=
  st.deferred = (opened st.trace).reverse.map Deferred.closeConn ++
    [.closeListenerAndClient localListener sshClient]

/-- The state in which an iteration ends, however it ends. -/
def Step.state : Step → LoopState
  | .next st => st
  | .ret st => st
  | .panic st => st
  | .blocked st => st

/-- The property `P` holds of the state with which an iteration goes to the next iteration or
returns; nothing is asked of an iteration that panics or blocks. -/
def Ends (P : LoopState → Prop) : Step → Prop
  | .next st => P st
  | .ret st => P st
  | .panic _ => True
  | .blocked _ => True

/-- The error that the loop sends when the dial of the remote address fails. -/
def dialError (f : Forward) (cause : GoError) : GoError :=
  errorf ("failed to connect on end host to docker daemon at '" ++ f.config.RemoteAddress ++
    "': ") cause

/-- The error that the loop sends when `Accept` fails. -/
def acceptError (cause : GoError) : GoError :=
  errorf "failed to build the local connection: "
    (errorf "failed to listen to local address: " cause)

/-- The forward that `NewForward` builds for the config `createForwardWithoutJump`. -/
def testForward : Forward :=
  { quit := ⟨1⟩, config := createForwardWithoutJump "localhost:2376" "localhost:2376",
    forwardErrors := ⟨0⟩ }

/-! ## Theorems: validation -/

theorem checkSSHConfig_eq_none_iff (h : Option SSHConfig) :
    checkSSHConfig h = none ↔ HopOk h := by
  cases h with
  | none => simp [checkSSHConfig, HopOk]
  | some c =>
    unfold checkSSHConfig HopOk
    by_cases hu : c.User = ""
    · simp [hu]
    · by_cases ha : c.Address = ""
      · simp [hu, ha]
      · by_cases hk : c.PrivateKeyFile = ""
        · by_cases hp : c.Password = "" <;> simp [hu, ha, hk, hp]
        · simp [hu, ha, hk]

theorem checkJumpHosts_eq_none_iff (l : List (Option SSHConfig)) :
    checkJumpHosts l = none ↔ ∀ j ∈ l, checkSSHConfig j = none := by
  induction l with
  | nil => simp [checkJumpHosts]
  | cons a rest ih =>
    unfold checkJumpHosts
    cases h : checkSSHConfig a with
    | none => simp [h, ih]
    | some e => simp [h]

theorem checkConfig_eq_none_iff (config : Option Config) :
    checkConfig config = none ↔ WellFormed config := by
  cases config with
  | none => simp [checkConfig, WellFormed]
  | some c =>
    unfold checkConfig WellFormed
    by_cases hlen : c.JumpHostConfigs.len > 1
    · simp only [hlen, if_true]
      constructor
      · intro h; cases h
      · rintro ⟨c', hc, hle, -⟩
        cases hc
        omega
    · have hle : c.JumpHostConfigs.len ≤ 1 := by omega
      simp only [hlen, if_false]
      cases hj : checkJumpHosts c.JumpHostConfigs.elems with
      | some e =>
        have hne : ¬ ∀ j ∈ c.JumpHostConfigs.elems, checkSSHConfig j = none := by
          rw [← checkJumpHosts_eq_none_iff, hj]; simp
        constructor
        · intro h; cases h
        · rintro ⟨c', hc, -, hall, -⟩
          cases hc
          exact absurd (fun j hjm => (checkSSHConfig_eq_none_iff j).2 (hall j hjm)) hne
      | none =>
        have hall : ∀ j ∈ c.JumpHostConfigs.elems, HopOk j := fun j hjm =>
          (checkSSHConfig_eq_none_iff j).1 ((checkJumpHosts_eq_none_iff _).1 hj j hjm)
        cases he : checkSSHConfig c.EndHostConfig with
        | some e =>
          have hne : ¬ HopOk c.EndHostConfig := by
            rw [← checkSSHConfig_eq_none_iff, he]; simp
          constructor
          · intro h; cases h
          · rintro ⟨c', hc, -, -, hend, -⟩
            cases hc
            exact absurd hend hne
        | none =>
          have hend : HopOk c.EndHostConfig := (checkSSHConfig_eq_none_iff _).1 he
          by_cases hl : c.LocalAddress = ""
          · simp [hl]
          · by_cases hr : c.RemoteAddress = ""
            · simp [hr]
            · simp only [hl, hr, or_self, if_false, true_iff]
              exact ⟨c, rfl, hle, hall, hend, hl, hr⟩

/-- C1: `checkConfig` returns nil exactly for the well-formed configs (present, at most one jump
host, every hop present with non-empty user and address and a key file or a password, both
addresses non-empty); a nil and an empty jump host list are treated alike, and a hop with both
a key file and a password passes. -/
theorem checkConfig_accepts_exactly_wellformed :
    (∀ config : Option Config, checkConfig config = none ↔ WellFormed config) ∧
    (∀ c : Config, checkConfig (some { c with JumpHostConfigs := none }) =
      checkConfig (some { c with JumpHostConfigs := some [] })) ∧
    (∀ h : SSHConfig, h.User ≠ "" → h.Address ≠ "" → h.PrivateKeyFile ≠ "" → h.Password ≠ "" →
      checkSSHConfig (some h) = none) := by
  refine ⟨checkConfig_eq_none_iff, fun c => rfl, fun h hu ha hk _ => ?_⟩
  exact (checkSSHConfig_eq_none_iff _).2 ⟨h, rfl, hu, ha, Or.inl hk⟩

theorem checkConfig_accepts_exactly_wellformed_witness :
    checkConfig (some (emptyJumpHosts "./testing/rsa_keys/id_rsa_end_host")) = none ∧
    WellFormed (some (emptyJumpHosts "./testing/rsa_keys/id_rsa_end_host")) ∧
    checkSSHConfig (some bothCredentials) = none :=
  ⟨by decide,
    (checkConfig_accepts_exactly_wellformed.1 _).1 (by decide),
    checkConfig_accepts_exactly_wellformed.2.2 bothCredentials
      (by decide) (by decide) (by decide) (by decide)⟩

theorem checkJumpHosts_first (pre : List (Option SSHConfig)) (h : Option SSHConfig)
    (post : List (Option SSHConfig)) (e : GoError)
    (hpre : ∀ p ∈ pre, checkSSHConfig p = none) (hh : checkSSHConfig h = some e) :
    checkJumpHosts (pre ++ h :: post) = some e := by
  induction pre with
  | nil => simp [checkJumpHosts, hh]
  | cons a rest ih =>
    have ha : checkSSHConfig a = none := hpre a (by simp)
    simp only [List.cons_append, checkJumpHosts, ha]
    exact ih (fun p hp => hpre p (by simp [hp]))

theorem checkJumpHosts_append_singleton (l : List (Option SSHConfig)) (x : Option SSHConfig) :
    checkJumpHosts (l ++ [x]) =
      match checkJumpHosts l with
      | some err => some err
      | none => checkSSHConfig x := by
  induction l with
  | nil => cases h : checkSSHConfig x <;> simp [checkJumpHosts, h]
  | cons a rest ih =>
    cases h : checkSSHConfig a with
    | none =>
      simp only [List.cons_append, checkJumpHosts, h]
      exact ih
    | some e => simp [checkJumpHosts, h]

theorem checkConfig_eq_hops (c : Config) (hle : c.JumpHostConfigs.len ≤ 1) :
    checkConfig (some c) =
      match checkJumpHosts (hops c) with
      | some err => some err
      | none =>
        if c.LocalAddress = "" ∨ c.RemoteAddress = "" then some ErrLocalAndRemoteAddressUnset
        else none := by
  have hlen : ¬ c.JumpHostConfigs.len > 1 := by omega
  unfold checkConfig hops
  rw [checkJumpHosts_append_singleton]
  simp only [hlen, if_false]
  cases checkJumpHosts c.JumpHostConfigs.elems with
  | some e => rfl
  | none => cases checkSSHConfig c.EndHostConfig <;> rfl

/-- C2: `checkConfig` reports the first violated rule: a nil config gives `ErrConfigIsNil`; more
than one jump host gives `ErrJumpHostsNotSupportd` whatever the rest of the config is; otherwise
the first failing hop (jump host before end host) decides, a hop failing in the order nil, empty
user, empty address, key file and password both empty; and when every hop passes an empty local
or remote address gives `ErrLocalAndRemoteAddressUnset`. -/
theorem checkConfig_reports_first_violation :
    checkConfig none = some ErrConfigIsNil ∧
    (∀ c : Config, 1 < c.JumpHostConfigs.len →
      checkConfig (some c) = some ErrJumpHostsNotSupportd) ∧
    (∀ (c : Config) (pre : List (Option SSHConfig)) (h : Option SSHConfig)
        (post : List (Option SSHConfig)) (e : GoError),
      c.JumpHostConfigs.len ≤ 1 → hops c = pre ++ h :: post →
      (∀ p ∈ pre, checkSSHConfig p = none) → checkSSHConfig h = some e →
      checkConfig (some c) = some e) ∧
    (checkSSHConfig none = some ErrSSHConfigUnset ∧
      ∀ s : SSHConfig,
        (s.User = "" → checkSSHConfig (some s) = some ErrUserEmpty) ∧
        (s.User ≠ "" → s.Address = "" → checkSSHConfig (some s) = some ErrAddressEmpty) ∧
        (s.User ≠ "" → s.Address ≠ "" → s.PrivateKeyFile = "" → s.Password = "" →
          checkSSHConfig (some s) = some ErrPrivateKeyFileAndPasswordUnset)) ∧
    (∀ c : Config, c.JumpHostConfigs.len ≤ 1 → (∀ h ∈ hops c, checkSSHConfig h = none) →
      (c.LocalAddress = "" ∨ c.RemoteAddress = "") →
      checkConfig (some c) = some ErrLocalAndRemoteAddressUnset) := by
  refine ⟨rfl, ?_, ?_, ⟨rfl, fun s => ⟨?_, ?_, ?_⟩⟩, ?_⟩
  · intro c hlen
    have : c.JumpHostConfigs.len > 1 := hlen
    simp [checkConfig, this]
  · intro c pre h post e hle hhops hpre hh
    rw [checkConfig_eq_hops c hle, hhops, checkJumpHosts_first pre h post e hpre hh]
  · intro hu
    simp [checkSSHConfig, hu]
  · intro hu ha
    simp [checkSSHConfig, hu, ha]
  · intro hu ha hk hp
    simp [checkSSHConfig, hu, ha, hk, hp]
  · intro c hle hall haddr
    rw [checkConfig_eq_hops c hle, (checkJumpHosts_eq_none_iff _).2 hall]
    simp [haddr]

theorem checkConfig_reports_first_violation_witness :
    checkConfig (some tooManyJumpHosts) = some ErrJumpHostsNotSupportd ∧
    checkConfig (some (createConfig "10.0.0.1:22" "jumpuser" "" "")) =
      some ErrPrivateKeyFileAndPasswordUnset ∧
    checkSSHConfig (some (testEndHost "" "")) = some ErrPrivateKeyFileAndPasswordUnset ∧
    checkConfig (some (createForwardWithoutJump "" "localhost:2376")) =
      some ErrLocalAndRemoteAddressUnset :=
  ⟨checkConfig_reports_first_violation.2.1 tooManyJumpHosts (by decide),
    checkConfig_reports_first_violation.2.2.1 (createConfig "10.0.0.1:22" "jumpuser" "" "")
      [] _ _ _ (by decide) rfl (by simp) (by decide),
    (checkConfig_reports_first_violation.2.2.2.1.2 (testEndHost "" "")).2.2
      (by decide) (by decide) rfl rfl,
    checkConfig_reports_first_violation.2.2.2.2 (createForwardWithoutJump "" "localhost:2376")
      (by decide) (by decide) (Or.inl rfl)⟩

/-! ## Theorems: NewForward -/

/-- C3: for a config that `checkConfig` rejects with error `e`, `NewForward` returns
`(nil, nil, e)` with that very error, and the call has no event: no file read, no dial, no
listener, no goroutine. -/
theorem NewForward_rejected_config (env : BootEnv) (config : Option Config) (e : GoError)
    (h : checkConfig config = some e) :
    NewForward env config = (.returns ⟨none, none, some e⟩, []) := by
  simp [NewForward, h]

theorem NewForward_rejected_config_witness :
    checkConfig (some tooManyJumpHosts) = some ErrJumpHostsNotSupportd ∧
    NewForward keysEnv (some tooManyJumpHosts) =
      (.returns ⟨none, none, some ErrJumpHostsNotSupportd⟩, []) :=
  ⟨by decide, NewForward_rejected_config keysEnv (some tooManyJumpHosts) _ (by decide)⟩

/-- C9: `convertToSSHConfig` gives a client config with the user, the 8 second timeout and one
auth method. With a key file set the method is the public key read and parsed from that file,
the password plays no part, and a failed read or parse is returned as the error (no fallback
to the password); with no key file the method is the password and no file is read. -/
theorem convertToSSHConfig_prefers_key_file (env : BootEnv) (c : SSHConfig) (tr : List Event) :
    (∀ cfg tr', convertToSSHConfig env c tr = (.ok cfg, tr') →
      cfg.User = c.User ∧ cfg.Timeout = 8 * second ∧ cfg.Auth.length = 1) ∧
    (c.PrivateKeyFile ≠ "" →
      (∀ password, convertToSSHConfig env { c with Password := password } tr =
        convertToSSHConfig env c tr) ∧
      (∀ buffer key, env.readFile c.PrivateKeyFile = .ok buffer →
        env.parsePrivateKey buffer = .ok key →
        convertToSSHConfig env c tr =
          (.ok { User := c.User, Auth := [.publicKeys [key]],
                 HostKeyCallback := .insecureIgnoreHostKey, Timeout := 8 * second },
            tr ++ [.readFile c.PrivateKeyFile])) ∧
      (∀ cause, env.readFile c.PrivateKeyFile = .err cause →
        convertToSSHConfig env c tr =
          (.err (errorf ("failed to read file '" ++ c.PrivateKeyFile ++ "': ") cause),
            tr ++ [.readFile c.PrivateKeyFile])) ∧
      (∀ buffer cause, env.readFile c.PrivateKeyFile = .ok buffer →
        env.parsePrivateKey buffer = .err cause →
        convertToSSHConfig env c tr =
          (.err (errorf ("failed to parse private key from file '" ++ c.PrivateKeyFile ++ "': ")
              cause),
            tr ++ [.readFile c.PrivateKeyFile]))) ∧
    (c.PrivateKeyFile = "" →
      convertToSSHConfig env c tr =
        (.ok { User := c.User, Auth := [.password c.Password],
               HostKeyCallback := .insecureIgnoreHostKey, Timeout := 8 * second }, tr)) := by
  refine ⟨?_, fun hk => ⟨?_, ?_, ?_, ?_⟩, ?_⟩
  · intro cfg tr' h
    unfold convertToSSHConfig at h
    by_cases hk : c.PrivateKeyFile = ""
    · simp only [hk, ne_eq, not_true_eq_false, if_false, Prod.mk.injEq, Res.ok.injEq] at h
      obtain ⟨rfl, -⟩ := h
      simp [connectionTimeout]
    · simp only [ne_eq, hk, not_false_eq_true, if_true] at h
      cases hp : publicKeyFile env c.PrivateKeyFile tr with
      | mk r t =>
        rw [hp] at h
        cases r with
        | err e => simp at h
        | ok m =>
          simp only [Prod.mk.injEq, Res.ok.injEq] at h
          obtain ⟨rfl, -⟩ := h
          simp [connectionTimeout]
  · intro password
    simp [convertToSSHConfig, hk]
  · intro buffer key hr hp
    simp [convertToSSHConfig, publicKeyFile, hk, hr, hp, connectionTimeout]
  · intro cause hr
    simp [convertToSSHConfig, publicKeyFile, hk, hr]
  · intro buffer cause hr hp
    simp [convertToSSHConfig, publicKeyFile, hk, hr, hp]
  · intro hk
    simp [convertToSSHConfig, hk, connectionTimeout]

theorem convertToSSHConfig_prefers_key_file_witness :
    convertToSSHConfig offlineEnv bothCredentials [] =
      (.err (errorf "failed to read file './key': "
          (.new "open ./key: no such file or directory")), [.readFile "./key"]) ∧
    convertToSSHConfig offlineEnv (testEndHost "" "endhostuserpass") [] =
      (.ok { User := "endhostuser", Auth := [.password "endhostuserpass"],
             HostKeyCallback := .insecureIgnoreHostKey, Timeout := 8 * second }, []) :=
  ⟨((convertToSSHConfig_prefers_key_file offlineEnv bothCredentials []).2.1
      (by decide)).2.2.1 _ rfl,
    (convertToSSHConfig_prefers_key_file offlineEnv (testEndHost "" "endhostuserpass") []).2.2
      rfl⟩

theorem convertToSSHConfig_trace (env : BootEnv) (c : SSHConfig) (tr : List Event) :
    ∃ reads, (convertToSSHConfig env c tr).2 = tr ++ reads ∧
      ∀ ev ∈ reads, ∃ file, ev = .readFile file := by
  unfold convertToSSHConfig
  by_cases hk : c.PrivateKeyFile = ""
  · exact ⟨[], by simp [hk]⟩
  · refine ⟨[.readFile c.PrivateKeyFile], ?_, by simp⟩
    simp only [ne_eq, hk, not_false_eq_true, if_true, publicKeyFile]
    cases env.readFile c.PrivateKeyFile with
    | err e => rfl
    | ok b =>
      simp only
      cases env.parsePrivateKey b <;> rfl

theorem errorf_errorf_Error (a b : String) (cause : GoError) :
    (errorf a (errorf b cause)).Error = (a ++ b) ++ cause.Error := by
  simp [errorf, GoError.Error, String.append_assoc]

theorem strContains_of_append (p s q : String) : strContains (p ++ s ++ q) s = true := by
  unfold strContains
  rw [List.any_eq_true]
  refine ⟨s.toList ++ q.toList, ?_, ?_⟩
  · rw [List.mem_tails]
    exact ⟨p.toList, by simp [String.toList, List.append_assoc]⟩
  · rw [List.isPrefixOf_iff_prefix]
    exact ⟨q.toList, rfl⟩

/-- C5: for a config that passes `checkConfig` and whose credentials convert, a failed dial is
returned by `NewForward` as `(nil, nil, err)`: with one jump host and its dial failing with
`cause`, the message is "failed to build SSH client: ssh.Dial to jump host failed: " followed by
the cause, and the events are file reads followed by that one dial (no dial of the end host, no
listener); with no jump host and the direct dial failing, the message is
"failed to build SSH client: ssh.Dial directly to end host failed: " followed by the cause, and
the events are file reads followed by that one dial (no listener). -/
theorem NewForward_dial_failure (env : BootEnv) (c : Config) (endHost : SSHConfig)
    (endHostConfig : ClientConfig) (tr₁ : List Event)
    (hcheck : checkConfig (some c) = none)
    (hend : c.EndHostConfig = some endHost)
    (hconv : convertToSSHConfig env endHost [] = (.ok endHostConfig, tr₁)) :
    (∀ (jumpHost : SSHConfig) (jumpHostConfig : ClientConfig) (tr₂ : List Event)
        (cause : GoError),
      c.JumpHostConfigs.elems = [some jumpHost] →
      convertToSSHConfig env jumpHost tr₁ = (.ok jumpHostConfig, tr₂) →
      env.sshDial jumpHost.Address jumpHostConfig = .err cause →
      NewForward env (some c) =
        (.returns ⟨none, none, some (errorf "failed to build SSH client: "
            (errorf "ssh.Dial to jump host failed: " cause))⟩,
          tr₂ ++ [.sshDial jumpHost.Address jumpHostConfig]) ∧
      (errorf "failed to build SSH client: "
          (errorf "ssh.Dial to jump host failed: " cause)).Error =
        "failed to build SSH client: ssh.Dial to jump host failed: " ++ cause.Error ∧
      ∀ ev ∈ tr₂, ∃ file, ev = .readFile file) ∧
    (∀ cause : GoError,
      c.JumpHostConfigs.elems = [] →
      env.sshDial endHost.Address endHostConfig = .err cause →
      NewForward env (some c) =
        (.returns ⟨none, none, some (errorf "failed to build SSH client: "
            (errorf "ssh.Dial directly to end host failed: " cause))⟩,
          tr₁ ++ [.sshDial endHost.Address endHostConfig]) ∧
      (errorf "failed to build SSH client: "
          (errorf "ssh.Dial directly to end host failed: " cause)).Error =
        "failed to build SSH client: ssh.Dial directly to end host failed: " ++ cause.Error ∧
      ∀ ev ∈ tr₁, ∃ file, ev = .readFile file) := by
  have hreads₁ : ∀ ev ∈ tr₁, ∃ file, ev = .readFile file := by
    obtain ⟨reads, hr, hall⟩ := convertToSSHConfig_trace env endHost []
    rw [hconv] at hr
    simp only [List.nil_append] at hr
    rw [hr]
    exact hall
  constructor
  · intro jumpHost jumpHostConfig tr₂ cause hj hconvj hdial
    refine ⟨?_, ?_, ?_⟩
    · simp [NewForward, hcheck, bootstrap, buildSSHClient, hend, hconv, GoSlice.len, hj,
        hconvj, hdial]
    · rw [errorf_errorf_Error]
      rfl
    · obtain ⟨reads, hr, hall⟩ := convertToSSHConfig_trace env jumpHost tr₁
      rw [hconvj] at hr
      simp only at hr
      rw [hr]
      intro ev hev
      rcases List.mem_append.1 hev with h | h
      · exact hreads₁ ev h
      · exact hall ev h
  · intro cause hj hdial
    refine ⟨?_, ?_, hreads₁⟩
    · simp [NewForward, hcheck, bootstrap, buildSSHClient, hend, hconv, GoSlice.len, hj, hdial]
    · rw [errorf_errorf_Error]
      rfl

theorem NewForward_dial_failure_witness :
    NewForward keysEnv (some (createConfig "10.0.0.1:22" "jumpuser" "" "jumpuserpassword")) =
      (.returns ⟨none, none, some (errorf "failed to build SSH client: "
          (errorf "ssh.Dial to jump host failed: "
            (.new "dial tcp 10.0.0.1:22: i/o timeout")))⟩,
        [.readFile "./testing/rsa_keys/id_rsa_end_host",
         .sshDial "10.0.0.1:22"
          { User := "jumpuser", Auth := [.password "jumpuserpassword"],
            HostKeyCallback := .insecureIgnoreHostKey, Timeout := 8 * second }]) ∧
    NewForward offlineEnv (some (createForwardWithoutJump "localhost:2376" "localhost:2376")) =
      (.returns ⟨none, none, some (errorf "failed to build SSH client: "
          (errorf "ssh.Dial directly to end host failed: "
            (.new "dial tcp 20.0.0.1:22: i/o timeout")))⟩,
        [.sshDial "20.0.0.1:22"
          { User := "endhostuser", Auth := [.password "endhostuserpass"],
            HostKeyCallback := .insecureIgnoreHostKey, Timeout := 8 * second }]) :=
  ⟨((NewForward_dial_failure keysEnv
      (createConfig "10.0.0.1:22" "jumpuser" "" "jumpuserpassword")
      (testEndHost "./testing/rsa_keys/id_rsa_end_host" "") _ _ (by decide) rfl rfl).1
      ⟨"10.0.0.1:22", "jumpuser", "", "jumpuserpassword"⟩ _ _ _ rfl rfl rfl).1,
    ((NewForward_dial_failure offlineEnv
      (createForwardWithoutJump "localhost:2376" "localhost:2376")
      (testEndHost "" "endhostuserpass") _ _ (by decide) rfl rfl).2 _ rfl rfl).1⟩

/-- C4, as stated, fails: with the end host key file "./nonexistent" unreadable and the end host
unreachable, `NewForward` fails on the key file before any dial; the returned message names the
end host config and the failed read and does not contain "ssh.Dial directly to end host
failed". -/
theorem NewForward_nonexistent_key_is_not_a_dial_error :
    offlineEnv.readFile "./nonexistent" =
      .err (.new "open ./nonexistent: no such file or directory") ∧
    (∀ cfg, offlineEnv.sshDial "20.0.0.1:22" cfg =
      .err (.new "dial tcp 20.0.0.1:22: i/o timeout")) ∧
    ∃ err, NewForward offlineEnv (some (emptyJumpHosts "./nonexistent")) =
        (.returns ⟨none, none, some err⟩, [.readFile "./nonexistent"]) ∧
      err.Error = "failed to build SSH client: failed to parse end host config: failed to read file './nonexistent': open ./nonexistent: no such file or directory" ∧
      strContains err.Error "ssh.Dial directly to end host failed" = false := by
  refine ⟨rfl, fun _ => rfl, _, rfl, ?_, ?_⟩
  · decide
  · decide

/-- C4, amended: for the config with no jump hosts and the end host of the tests with the
non-empty key file `keyFile`. If the read of the key file fails (as for "./nonexistent"),
`NewForward` returns `(nil, nil, err)` with the message
"failed to build SSH client: failed to parse end host config: failed to read file '<keyFile>': "
followed by the cause, and the read is the only event: the end host is not dialed. If the file
is read and does not parse, the message is "failed to build SSH client: failed to parse end host
config: failed to parse private key from file '<keyFile>': " followed by the cause, again with
no dial. If the key file is read and parsed and the dial of the end host fails, `NewForward`
returns `(nil, nil, err)` with the message
"failed to build SSH client: ssh.Dial directly to end host failed: " followed by the cause,
which contains "ssh.Dial directly to end host failed". -/
theorem NewForward_emptyJumpHosts_failures (env : BootEnv) (keyFile : String)
    (hk : keyFile ≠ "") :
    (∀ cause, env.readFile keyFile = .err cause →
      ∃ err, NewForward env (some (emptyJumpHosts keyFile)) =
          (.returns ⟨none, none, some err⟩, [.readFile keyFile]) ∧
        err.Error = "failed to build SSH client: failed to parse end host config: " ++
          ("failed to read file '" ++ keyFile ++ "': " ++ cause.Error)) ∧
    (∀ buffer cause, env.readFile keyFile = .ok buffer →
      env.parsePrivateKey buffer = .err cause →
      ∃ err, NewForward env (some (emptyJumpHosts keyFile)) =
          (.returns ⟨none, none, some err⟩, [.readFile keyFile]) ∧
        err.Error = "failed to build SSH client: failed to parse end host config: " ++
          ("failed to parse private key from file '" ++ keyFile ++ "': " ++ cause.Error)) ∧
    (∀ buffer key cause, env.readFile keyFile = .ok buffer →
      env.parsePrivateKey buffer = .ok key →
      env.sshDial "20.0.0.1:22"
        { User := "endhostuser", Auth := [.publicKeys [key]],
          HostKeyCallback := .insecureIgnoreHostKey, Timeout := 8 * second } = .err cause →
      ∃ err, NewForward env (some (emptyJumpHosts keyFile)) =
          (.returns ⟨none, none, some err⟩,
            [.readFile keyFile,
             .sshDial "20.0.0.1:22"
              { User := "endhostuser", Auth := [.publicKeys [key]],
                HostKeyCallback := .insecureIgnoreHostKey, Timeout := 8 * second }]) ∧
        err.Error =
          "failed to build SSH client: ssh.Dial directly to end host failed: " ++ cause.Error ∧
        strContains err.Error "ssh.Dial directly to end host failed" = true) := by
  have hcheck : checkConfig (some (emptyJumpHosts keyFile)) = none := by
    simp [checkConfig, emptyJumpHosts, GoSlice.len, GoSlice.elems, checkJumpHosts,
      checkSSHConfig, testEndHost, hk]
  refine ⟨?_, ?_, ?_⟩
  · intro cause hr
    refine ⟨errorf "failed to build SSH client: " (errorf "failed to parse end host config: "
      (errorf ("failed to read file '" ++ keyFile ++ "': ") cause)), ?_, ?_⟩
    · simp [NewForward, hcheck, bootstrap, buildSSHClient, convertToSSHConfig, publicKeyFile]
      simp [emptyJumpHosts, testEndHost, hk, hr]
    · rw [errorf_errorf_Error]
      rfl
  · intro buffer cause hr hp
    refine ⟨errorf "failed to build SSH client: " (errorf "failed to parse end host config: "
      (errorf ("failed to parse private key from file '" ++ keyFile ++ "': ") cause)), ?_, ?_⟩
    · simp [NewForward, hcheck, bootstrap, buildSSHClient, convertToSSHConfig, publicKeyFile]
      simp [emptyJumpHosts, testEndHost, hk, hr, hp]
    · rw [errorf_errorf_Error]
      rfl
  · intro buffer key cause hr hp hdial
    refine ⟨errorf "failed to build SSH client: "
      (errorf "ssh.Dial directly to end host failed: " cause), ?_, ?_, ?_⟩
    · simp [NewForward, hcheck, bootstrap, buildSSHClient, convertToSSHConfig, publicKeyFile]
      simp [emptyJumpHosts, testEndHost, hk, hr, hp, GoSlice.len, GoSlice.elems,
        connectionTimeout, hdial]
    · rw [errorf_errorf_Error]
      rfl
    · rw [errorf_errorf_Error]
      have h : "failed to build SSH client: " ++ "ssh.Dial directly to end host failed: " ++
            cause.Error =
          "failed to build SSH client: " ++ "ssh.Dial directly to end host failed" ++
            (": " ++ cause.Error) := by
        rw [← String.append_assoc]
        rfl
      rw [h]
      exact strContains_of_append _ _ _

theorem NewForward_emptyJumpHosts_failures_witness :
    (∃ err, NewForward offlineEnv (some (emptyJumpHosts "./nonexistent")) =
        (.returns ⟨none, none, some err⟩, [.readFile "./nonexistent"]) ∧
      err.Error = "failed to build SSH client: failed to parse end host config: " ++
        ("failed to read file '" ++ "./nonexistent" ++ "': " ++
          (GoError.new "open ./nonexistent: no such file or directory").Error)) ∧
    (∃ err, NewForward badKeyEnv (some (emptyJumpHosts "./nonexistent")) =
        (.returns ⟨none, none, some err⟩, [.readFile "./nonexistent"]) ∧
      err.Error = "failed to build SSH client: failed to parse end host config: " ++
        ("failed to parse private key from file '" ++ "./nonexistent" ++ "': " ++
          (GoError.new "ssh: no key found").Error)) ∧
    (∃ err, NewForward keysEnv (some (emptyJumpHosts "./testing/rsa_keys/id_rsa_end_host")) =
        (.returns ⟨none, none, some err⟩,
          [.readFile "./testing/rsa_keys/id_rsa_end_host",
           .sshDial "20.0.0.1:22"
            { User := "endhostuser", Auth := [.publicKeys [⟨7⟩]],
              HostKeyCallback := .insecureIgnoreHostKey, Timeout := 8 * second }]) ∧
      err.Error = "failed to build SSH client: ssh.Dial directly to end host failed: " ++
        (GoError.new "dial tcp 20.0.0.1:22: i/o timeout").Error ∧
      strContains err.Error "ssh.Dial directly to end host failed" = true) :=
  ⟨(NewForward_emptyJumpHosts_failures offlineEnv "./nonexistent" (by decide)).1 _ rfl,
    (NewForward_emptyJumpHosts_failures badKeyEnv "./nonexistent" (by decide)).2.1 _ _ rfl rfl,
    (NewForward_emptyJumpHosts_failures keysEnv "./testing/rsa_keys/id_rsa_end_host"
      (by decide)).2.2 _ _ _ rfl rfl rfl⟩

/-! ## Theorems: the accept loop -/

theorem reportIf_of_completes (o : IterEnv) (p : Point) (r : Option GoError) (pre : String)
    (st : LoopState) (k : LoopState → Step) (h : SendCompletes o p r) :
    reportIf r (o.stop p) (o.received p) pre st k =
      k { st with trace := st.trace ++ reported r pre } := by
  cases r with
  | none => simp [reportIf, reported]
  | some e =>
    rcases h with h | ⟨hs, hr⟩
    · cases h
    · simp [reportIf, sendErr, hs, hr, reported, LoopState.log]

theorem sendCompletes_of_live (o : IterEnv) (p : Point) (r : Option GoError)
    (hlive : o.stop p = .live) (hrecv : o.received p = true) : SendCompletes o p r :=
  Or.inr ⟨by rw [hlive]; decide, hrecv⟩

theorem iteration_dial_err (f : Forward) (sshClient : Client) (localListener : Listener)
    (o : IterEnv) (st : LoopState) (cause : GoError) (hdial : o.dial = .err cause)
    (hs : o.stop .dialErr ≠ .stopped) (hr : o.received .dialErr = true) :
    iteration f sshClient localListener o st =
      .ret { st with
        trace := st.trace ++ [.clientDial sshClient f.config.RemoteAddress (.err cause),
          .send (dialError f cause)] } := by
  simp [iteration, hdial, sendErr, hs, hr, LoopState.log, dialError]

theorem iteration_accept_err (f : Forward) (sshClient : Client) (localListener : Listener)
    (o : IterEnv) (st : LoopState) (endHostConn : Conn) (cause : GoError)
    (hdial : o.dial = .ok endHostConn) (haccept : o.accept = .err cause)
    (her : SendCompletes o .endRead o.endSetReadDeadline)
    (hew : SendCompletes o .endWrite o.endSetWriteDeadline)
    (hs : o.stop .acceptErr ≠ .stopped) (hr : o.received .acceptErr = true) :
    iteration f sshClient localListener o st =
      .ret { trace := st.trace ++ eventsToAccept f sshClient o endHostConn ++
               [.accept localListener (.err cause), .send (acceptError cause)],
             deferred := .closeConn endHostConn :: st.deferred,
             jumpCount := st.jumpCount } := by
  simp [iteration, hdial, haccept, reportIf_of_completes o .endRead _ _ _ _ her,
    reportIf_of_completes o .endWrite _ _ _ _ hew, hs, hr, sendErr, buildLocalConnection,
    LoopState.log, LoopState.defer, eventsToAccept, acceptError, readDeadline, writeDeadline]

theorem iteration_accept_ok (f : Forward) (sshClient : Client) (localListener : Listener)
    (o : IterEnv) (st : LoopState) (endHostConn localConn : Conn)
    (hdial : o.dial = .ok endHostConn) (haccept : o.accept = .ok localConn)
    (her : SendCompletes o .endRead o.endSetReadDeadline)
    (hew : SendCompletes o .endWrite o.endSetWriteDeadline)
    (hlr : SendCompletes o .localRead o.localSetReadDeadline)
    (hlw : SendCompletes o .localWrite o.localSetWriteDeadline) :
    iteration f sshClient localListener o st =
      match o.localSetWriteDeadline with
      | none =>
        .next { trace := st.trace ++ eventsToAccept f sshClient o endHostConn ++
                  eventsAfterAccept localListener o localConn ++
                  relayEvents localConn endHostConn,
                deferred := .closeConn localConn :: .closeConn endHostConn :: st.deferred,
                jumpCount := st.jumpCount + 1 }
      | some _ =>
        (if o.stop .select = .live then Step.next else Step.ret)
          { trace := st.trace ++ eventsToAccept f sshClient o endHostConn ++
              eventsAfterAccept localListener o localConn,
            deferred := .closeConn localConn :: .closeConn endHostConn :: st.deferred,
            jumpCount := st.jumpCount } := by
  cases hlwd : o.localSetWriteDeadline with
  | none =>
    have hlw' : SendCompletes o .localWrite none := Or.inl rfl
    simp [iteration, hdial, haccept, reportIf_of_completes o .endRead _ _ _ _ her,
      reportIf_of_completes o .endWrite _ _ _ _ hew,
      reportIf_of_completes o .localRead _ _ _ _ hlr,
      reportIf_of_completes o .localWrite _ _ _ _ hlw', hlwd, buildLocalConnection,
      LoopState.log, LoopState.defer, eventsToAccept, eventsAfterAccept, relayEvents,
      handleForward, readDeadline, writeDeadline, reported]
  | some e =>
    have hlw' : SendCompletes o .localWrite (some e) := hlwd ▸ hlw
    by_cases hsel : o.stop .select = .live <;>
      simp [iteration, hdial, haccept, reportIf_of_completes o .endRead _ _ _ _ her,
        reportIf_of_completes o .endWrite _ _ _ _ hew,
        reportIf_of_completes o .localRead _ _ _ _ hlr,
        reportIf_of_completes o .localWrite _ _ _ _ hlw', hlwd, hsel,
        buildLocalConnection, LoopState.log, LoopState.defer, eventsToAccept, eventsAfterAccept,
        readDeadline, writeDeadline, reported]

/-- C6 fails on the code: the caller calls `Stop` while `run` waits in its first `Accept` (the
channel to the remote address is open and its two deadline errors have been received). The
`Accept` then returns a connection, which gets its deadlines and is handed to the relay, and
`run` stays in its loop with the listener and the SSH session open. They are closed only when
the next iteration panics on its first send to the closed `forwardErrors`. -/
theorem run_accepts_and_relays_after_Stop (f : Forward) (sshClient : Client)
    (localListener : Listener) (fuel : Nat) :
    Stop .live = .returns .stopped ∧
    (stopDuringAccept 0).stop .endWrite = .live ∧
    (stopDuringAccept 0).stop .accept = .stopped ∧
    run f sshClient localListener stopDuringAccept 1 =
      .looping
        { trace := firstPairEvents f sshClient localListener,
          deferred := [.closeConn ⟨1⟩, .closeConn ⟨0⟩,
            .closeListenerAndClient localListener sshClient],
          jumpCount := 2 } ∧
    run f sshClient localListener stopDuringAccept (fuel + 2) =
      .panicked
        (firstPairEvents f sshClient localListener ++
          [.clientDial sshClient f.config.RemoteAddress (.ok ⟨2⟩),
           .setReadDeadline ⟨2⟩ (30 * second) (some tcpChanDeadline),
           .connClose ⟨1⟩,
           .connClose ⟨0⟩,
           .listenerClose localListener,
           .clientClose sshClient]) := by
  refine ⟨rfl, rfl, rfl, ?_, ?_⟩
  · simp [run, loop, iteration, stopDuringAccept, tcpChanWorld, allOk, initState, reportIf,
      sendErr, buildLocalConnection, handleForward, LoopState.log, LoopState.defer,
      readDeadline, writeDeadline, firstPairEvents]
  · simp [run, loop, iteration, stopDuringAccept, tcpChanWorld, allOk, initState, reportIf,
      sendErr, buildLocalConnection, handleForward, LoopState.log, LoopState.defer,
      readDeadline, writeDeadline, firstPairEvents, runDeferred]

/-- While `forwardErrors` is open, a failed dial of the remote address in the first iteration
is sent as one error, `run` returns, and the listener and the SSH session are closed. -/
theorem run_dial_failure_reports_and_closes (f : Forward) (sshClient : Client)
    (localListener : Listener) (fuel : Nat) :
    run f sshClient localListener (dialFails .live) (fuel + 1) =
      .returned
        [.clientDial sshClient f.config.RemoteAddress
           (.err (.new "ssh: rejected: connect failed (Connection refused)")),
         .send (dialError f (.new "ssh: rejected: connect failed (Connection refused)")),
         .listenerClose localListener,
         .clientClose sshClient] := by
  simp [run, loop, iteration, dialFails, allOk, initState, runDeferred, sendErr, LoopState.log,
    dialError]

/-- C7 fails on the code: with `Stop` called before (both channels closed) and the dial of the
remote address failing, the send of the error panics on the closed `forwardErrors`: `run` ends
by panic, no error reaches the error sink, and the deferred closes of the listener and the SSH
session run. The same happens when `Accept` fails. -/
theorem run_dial_failure_after_Stop_panics (f : Forward) (sshClient : Client)
    (localListener : Listener) (fuel : Nat) :
    Stop .live = .returns .stopped ∧
    run f sshClient localListener (dialFails .stopped) (fuel + 1) =
      .panicked
        [.clientDial sshClient f.config.RemoteAddress
           (.err (.new "ssh: rejected: connect failed (Connection refused)")),
         .listenerClose localListener,
         .clientClose sshClient] ∧
    run f sshClient localListener (acceptFails .stopped) (fuel + 1) =
      .panicked
        [.clientDial sshClient f.config.RemoteAddress (.ok ⟨0⟩),
         .setReadDeadline ⟨0⟩ (30 * second) none,
         .setWriteDeadline ⟨0⟩ (30 * second) none,
         .accept localListener (.err (.new "accept tcp 127.0.0.1:2376: too many open files")),
         .connClose ⟨0⟩,
         .listenerClose localListener,
         .clientClose sshClient] := by
  refine ⟨rfl, ?_, ?_⟩
  · simp [run, loop, iteration, dialFails, allOk, initState, runDeferred, sendErr,
      LoopState.log]
  · simp [run, loop, iteration, acceptFails, allOk, initState, runDeferred, reportIf, sendErr,
      buildLocalConnection, LoopState.log, LoopState.defer, readDeadline, writeDeadline]

/-- The accept half of the failure of C7 in the world of the ssh library: `Stop` is called while
`run` waits in `Accept`, the `Accept` fails, and the send of its error panics. -/
theorem run_accept_failure_after_Stop_panics (f : Forward) (sshClient : Client)
    (localListener : Listener) (fuel : Nat) :
    run f sshClient localListener acceptFailsAfterStop (fuel + 1) =
      .panicked
        [.clientDial sshClient f.config.RemoteAddress (.ok ⟨0⟩),
         .setReadDeadline ⟨0⟩ (30 * second) (some tcpChanDeadline),
         .send (errorf "failed to set read deadline on end host connection: " tcpChanDeadline),
         .setWriteDeadline ⟨0⟩ (30 * second) (some tcpChanDeadline),
         .send (errorf "failed to set write deadline on end host connection: " tcpChanDeadline),
         .accept localListener (.err (.new "accept tcp 127.0.0.1:2376: too many open files")),
         .connClose ⟨0⟩,
         .listenerClose localListener,
         .clientClose sshClient] := by
  simp [run, loop, iteration, acceptFailsAfterStop, stopDuringAccept, tcpChanWorld, allOk,
    initState, reportIf, sendErr, buildLocalConnection, LoopState.log, LoopState.defer,
    readDeadline, writeDeadline, runDeferred]

/-- With a caller that never receives from `forwardErrors`, `run` blocks in the send of the first
deadline error, before it has called `Accept`. -/
theorem run_blocks_when_nobody_receives (f : Forward) (sshClient : Client)
    (localListener : Listener) (fuel : Nat) :
    run f sshClient localListener nobodyReceives (fuel + 1) =
      .blocked
        { trace := [.clientDial sshClient f.config.RemoteAddress (.ok ⟨0⟩),
            .setReadDeadline ⟨0⟩ (30 * second) (some tcpChanDeadline)],
          deferred := [.closeListenerAndClient localListener sshClient],
          jumpCount := 1 } := by
  simp [run, loop, iteration, nobodyReceives, tcpChanWorld, allOk, initState, reportIf,
    sendErr, LoopState.log, readDeadline]

/-- C8, as stated, fails: with `Stop` not called and every send received, a failed write
deadline call on the local connection is reported and the loop goes on, but not with the
remaining step of the iteration: the pair is not handed to the relay (no copying goroutine is
started and `jumpCount` stays 1). -/
theorem local_write_deadline_failure_skips_the_relay :
    (∀ p, (localWriteDeadlineFails 0).stop p = .live) ∧
    (∀ p, (localWriteDeadlineFails 0).received p = true) ∧
    run testForward ⟨0⟩ ⟨0⟩ localWriteDeadlineFails 1 =
      .looping
        { trace :=
            [.clientDial ⟨0⟩ "localhost:2376" (.ok ⟨0⟩),
             .setReadDeadline ⟨0⟩ (30 * second) (some tcpChanDeadline),
             .send (errorf "failed to set read deadline on end host connection: "
               tcpChanDeadline),
             .setWriteDeadline ⟨0⟩ (30 * second) (some tcpChanDeadline),
             .send (errorf "failed to set write deadline on end host connection: "
               tcpChanDeadline),
             .accept ⟨0⟩ (.ok ⟨1⟩),
             .setReadDeadline ⟨1⟩ (30 * second) none,
             .setWriteDeadline ⟨1⟩ (30 * second)
               (some (.new "set tcp 127.0.0.1:2376: use of closed network connection")),
             .send (errorf "failed to set write deadline on local connection: "
               (.new "set tcp 127.0.0.1:2376: use of closed network connection"))],
          deferred := [.closeConn ⟨1⟩, .closeConn ⟨0⟩, .closeListenerAndClient ⟨0⟩ ⟨0⟩],
          jumpCount := 1 } := by
  refine ⟨fun _ => rfl, fun _ => rfl, ?_⟩
  simp [run, loop, iteration, localWriteDeadlineFails, tcpChanWorld, allOk, initState, reportIf,
    sendErr, buildLocalConnection, LoopState.log, LoopState.defer, readDeadline, writeDeadline,
    testForward, createForwardWithoutJump]

theorem loop_goes_on (f : Forward) (sshClient : Client) (localListener : Listener)
    (env : Nat → IterEnv) (endHostConn localConn : Nat → Conn) (n : Nat) :
    ∀ (k : Nat) (st : LoopState),
      (∀ j, k ≤ j → j < k + n →
        (∀ p, (env j).stop p = .live) ∧ (∀ p, (env j).received p = true) ∧
        (env j).dial = .ok (endHostConn j) ∧ (env j).accept = .ok (localConn j)) →
      ∃ st', loop f sshClient localListener env n k st = .looping st' ∧
        st'.trace = st.trace ++
          runEvents f sshClient localListener env endHostConn localConn k n := by
  induction n with
  | zero => intro k st _; exact ⟨st, rfl, by simp [runEvents]⟩
  | succ n ih =>
    intro k st h
    obtain ⟨hlive, hrecv, hdial, haccept⟩ := h k (Nat.le_refl k) (by omega)
    have hc : ∀ p r, SendCompletes (env k) p r := fun p r =>
      sendCompletes_of_live (env k) p r (hlive p) (hrecv p)
    have hit := iteration_accept_ok f sshClient localListener (env k) st (endHostConn k)
      (localConn k) hdial haccept (hc _ _) (hc _ _) (hc _ _) (hc _ _)
    have hrest : ∀ j, k + 1 ≤ j → j < k + 1 + n →
        (∀ p, (env j).stop p = .live) ∧ (∀ p, (env j).received p = true) ∧
        (env j).dial = .ok (endHostConn j) ∧ (env j).accept = .ok (localConn j) :=
      fun j h₁ h₂ => h j (by omega) (by omega)
    cases hlwd : (env k).localSetWriteDeadline with
    | none =>
      rw [hlwd] at hit
      simp only [loop, hit]
      obtain ⟨st', h₁, h₂⟩ := ih (k + 1) _ hrest
      exact ⟨st', h₁, by simp [h₂, runEvents, iterationEvents, hlwd]⟩
    | some e =>
      rw [hlwd] at hit
      simp only [hlive, if_true] at hit
      simp only [loop, hit]
      obtain ⟨st', h₁, h₂⟩ := ih (k + 1) _ hrest
      exact ⟨st', h₁, by simp [h₂, runEvents, iterationEvents, hlwd]⟩

/-- C8, amended: while `Stop` has not been called, the caller receives what is sent on the error
sink, no copying goroutine has ended the process and the dials and accepts succeed, no result of
the four deadline calls ends the loop: after any number `n` of iterations the loop is still
running, and each iteration has made all its calls in order, with one send for each failed
deadline call, and has started the relay exactly when the write deadline call on the local
connection returned nil (after that call has failed the pair is not handed to the relay and the
loop goes to its next iteration). -/
theorem run_goes_on_after_deadline_failures (f : Forward) (sshClient : Client)
    (localListener : Listener) (env : Nat → IterEnv) (endHostConn localConn : Nat → Conn)
    (n : Nat)
    (hlive : ∀ k < n, ∀ p, (env k).stop p = .live)
    (hrecv : ∀ k < n, ∀ p, (env k).received p = true)
    (hdial : ∀ k < n, (env k).dial = .ok (endHostConn k))
    (haccept : ∀ k < n, (env k).accept = .ok (localConn k)) :
    ∃ st, process f sshClient localListener env none n = .ran (.looping st) ∧
      st.trace = runEvents f sshClient localListener env endHostConn localConn 0 n := by
  obtain ⟨st, h₁, h₂⟩ := loop_goes_on f sshClient localListener env endHostConn localConn n 0
    (initState sshClient localListener)
    (fun j _ hj => ⟨hlive j (by omega), hrecv j (by omega), hdial j (by omega),
      haccept j (by omega)⟩)
  refine ⟨st, ?_, ?_⟩
  · simp only [process, run, h₁]
  · simpa [initState] using h₂

theorem run_goes_on_after_deadline_failures_witness :
    ∃ st, process testForward ⟨0⟩ ⟨0⟩ localWriteDeadlineFails none 2 = .ran (.looping st) ∧
      st.trace = runEvents testForward ⟨0⟩ ⟨0⟩ localWriteDeadlineFails
        (fun k => ⟨2 * k⟩) (fun k => ⟨2 * k + 1⟩) 0 2 :=
  run_goes_on_after_deadline_failures testForward ⟨0⟩ ⟨0⟩ localWriteDeadlineFails
    (fun k => ⟨2 * k⟩) (fun k => ⟨2 * k + 1⟩) 2
    (fun _ _ _ => rfl) (fun _ _ _ => rfl) (fun _ _ => rfl) (fun _ _ => rfl)

/-- C10: in an iteration in which the channel to the remote address is opened and a local
connection is accepted, and in which the sends of the failed deadline calls complete, the pair
is handed to the relay exactly when the write deadline call on the local connection returned
nil. With nil the relay is started and the next iteration follows whatever the other three
deadline calls returned and without a look at `quit`; with an error the relay is skipped and
`quit` decides: the loop returns when it is closed and starts the next iteration when not. -/
theorem relay_iff_local_write_deadline (f : Forward) (sshClient : Client)
    (localListener : Listener) (o : IterEnv) (st : LoopState) (endHostConn localConn : Conn)
    (hdial : o.dial = .ok endHostConn) (haccept : o.accept = .ok localConn)
    (her : SendCompletes o .endRead o.endSetReadDeadline)
    (hew : SendCompletes o .endWrite o.endSetWriteDeadline)
    (hlr : SendCompletes o .localRead o.localSetReadDeadline)
    (hlw : SendCompletes o .localWrite o.localSetWriteDeadline) :
    (o.localSetWriteDeadline = none →
      iteration f sshClient localListener o st =
        .next { trace := st.trace ++ eventsToAccept f sshClient o endHostConn ++
                  eventsAfterAccept localListener o localConn ++
                  relayEvents localConn endHostConn,
                deferred := .closeConn localConn :: .closeConn endHostConn :: st.deferred,
                jumpCount := st.jumpCount + 1 }) ∧
    (∀ err, o.localSetWriteDeadline = some err →
      iteration f sshClient localListener o st =
        (if o.stop .select = .live then Step.next else Step.ret)
          { trace := st.trace ++ eventsToAccept f sshClient o endHostConn ++
              eventsAfterAccept localListener o localConn,
            deferred := .closeConn localConn :: .closeConn endHostConn :: st.deferred,
            jumpCount := st.jumpCount }) := by
  have h := iteration_accept_ok f sshClient localListener o st endHostConn localConn hdial
    haccept her hew hlr hlw
  constructor
  · intro hnone
    rw [hnone] at h
    exact h
  · intro err hsome
    rw [hsome] at h
    exact h

theorem relay_iff_local_write_deadline_witness :
    iteration testForward ⟨0⟩ ⟨0⟩ (tcpChanWorld .live 0) (initState ⟨0⟩ ⟨0⟩) =
      .next { trace := firstPairEvents testForward ⟨0⟩ ⟨0⟩,
              deferred := [.closeConn ⟨1⟩, .closeConn ⟨0⟩, .closeListenerAndClient ⟨0⟩ ⟨0⟩],
              jumpCount := 2 } ∧
    iteration testForward ⟨0⟩ ⟨0⟩ (stopBeforeSelect 0) (initState ⟨0⟩ ⟨0⟩) =
      .ret { trace := eventsToAccept testForward ⟨0⟩ (stopBeforeSelect 0) ⟨0⟩ ++
               eventsAfterAccept ⟨0⟩ (stopBeforeSelect 0) ⟨1⟩,
             deferred := [.closeConn ⟨1⟩, .closeConn ⟨0⟩, .closeListenerAndClient ⟨0⟩ ⟨0⟩],
             jumpCount := 1 } :=
  ⟨(relay_iff_local_write_deadline testForward ⟨0⟩ ⟨0⟩ (tcpChanWorld .live 0)
      (initState ⟨0⟩ ⟨0⟩) ⟨0⟩ ⟨1⟩ rfl rfl
      (Or.inr ⟨by decide, rfl⟩) (Or.inr ⟨by decide, rfl⟩) (Or.inl rfl) (Or.inl rfl)).1 rfl,
    (relay_iff_local_write_deadline testForward ⟨0⟩ ⟨0⟩ (stopBeforeSelect 0)
      (initState ⟨0⟩ ⟨0⟩) ⟨0⟩ ⟨1⟩ rfl rfl
      (Or.inr ⟨by decide, rfl⟩) (Or.inr ⟨by decide, rfl⟩) (Or.inl rfl)
      (Or.inr ⟨by decide, rfl⟩)).2 _ rfl⟩

theorem opened_append (a b : List Event) : opened (a ++ b) = opened a ++ opened b := by
  induction a with
  | nil => rfl
  | cons ev rest ih => simp [opened, ih]

theorem runDeferred_closeConns (cs : List Conn) (rest : List Deferred) :
    runDeferred (cs.map Deferred.closeConn ++ rest) = cs.map Event.connClose ++ runDeferred rest := by
  induction cs with
  | nil => rfl
  | cons c cs ih => simp [runDeferred, ih]

theorem opened_reported (r : Option GoError) (pre : String) : opened (reported r pre) = [] := by
  cases r <;> rfl

theorem connClose_not_mem_reported (r : Option GoError) (pre : String) (c : Conn) :
    Event.connClose c ∉ reported r pre := by
  cases r <;> simp [reported]

theorem ends_sendErr (P : LoopState → Prop) (s : StopState) (received : Bool) (err : GoError)
    (st : LoopState) (k : LoopState → Step)
    (h : Ends P (k { st with trace := st.trace ++ [.send err] })) :
    Ends P (sendErr s received err st k) := by
  unfold sendErr
  split_ifs
  · trivial
  · exact h
  · trivial

theorem ends_reportIf (P : LoopState → Prop) (r : Option GoError) (s : StopState)
    (received : Bool) (pre : String) (st : LoopState) (k : LoopState → Step)
    (h : Ends P (k { st with trace := st.trace ++ reported r pre })) :
    Ends P (reportIf r s received pre st k) := by
  cases r with
  | none => simpa [reportIf, reported] using h
  | some e => exact ends_sendErr P s received _ st k (by simpa [reported] using h)

theorem iteration_ends_DefersMatch (f : Forward) (sshClient : Client)
    (localListener : Listener) (o : IterEnv) (st : LoopState)
    (hinv : DefersMatch sshClient localListener st) :
    Ends (fun st' => DefersMatch sshClient localListener st' ∧
        ∃ evs, st'.trace = st.trace ++ evs ∧ ∀ c, Event.connClose c ∉ evs)
      (iteration f sshClient localListener o st) := by
  unfold DefersMatch at hinv
  simp only [iteration, buildLocalConnection, LoopState.log, LoopState.defer, handleForward]
  cases hd : o.dial with
  | err e =>
    simp only
    apply ends_sendErr
    exact ⟨by simp [DefersMatch, opened_append, opened, Event.opens, hinv],
      ⟨_, by simp only [List.append_assoc]; rfl, by simp⟩⟩
  | ok endHostConn =>
    simp only
    apply ends_reportIf
    apply ends_reportIf
    cases ha : o.accept with
    | err e =>
      simp only
      apply ends_sendErr
      exact ⟨by simp [DefersMatch, opened_append, opened, Event.opens, opened_reported, hinv],
        ⟨_, by simp only [List.append_assoc]; rfl,
          by simp [connClose_not_mem_reported]⟩⟩
    | ok localConn =>
      simp only
      apply ends_reportIf
      apply ends_reportIf
      cases hw : o.localSetWriteDeadline with
      | none =>
        exact ⟨by simp [DefersMatch, opened_append, opened, Event.opens, opened_reported, hinv],
          ⟨_, by simp only [List.append_assoc]; rfl,
            by simp [connClose_not_mem_reported]⟩⟩
      | some e =>
        simp only
        split_ifs <;>
        exact ⟨by simp [DefersMatch, opened_append, opened, Event.opens, opened_reported, hinv],
          ⟨_, by simp only [List.append_assoc]; rfl,
            by simp [connClose_not_mem_reported]⟩⟩

theorem iteration_preserves_DefersMatch (f : Forward) (sshClient : Client)
    (localListener : Listener) (o : IterEnv) (st st' : LoopState)
    (h : iteration f sshClient localListener o st = .next st' ∨
      iteration f sshClient localListener o st = .ret st')
    (hinv : DefersMatch sshClient localListener st) :
    DefersMatch sshClient localListener st' ∧ ∃ evs, st'.trace = st.trace ++ evs ∧
      (∀ c, Event.connClose c ∉ evs) := by
  have hends := iteration_ends_DefersMatch f sshClient localListener o st hinv
  rcases h with h | h <;> rw [h] at hends <;> exact hends

theorem loop_returned_closes_everything (f : Forward) (sshClient : Client)
    (localListener : Listener) (env : Nat → IterEnv) (fuel : Nat) :
    ∀ (k : Nat) (st : LoopState) (tr : List Event),
      DefersMatch sshClient localListener st → (∀ c, Event.connClose c ∉ st.trace) →
      loop f sshClient localListener env fuel k st = .returned tr →
      ∃ body, tr = body ++ (opened body).reverse.map Event.connClose ++
          [.listenerClose localListener, .clientClose sshClient] ∧
        ∀ c, Event.connClose c ∉ body := by
  induction fuel with
  | zero => intro k st tr _ _ h; simp [loop] at h
  | succ fuel ih =>
    intro k st tr hinv hnc h
    simp only [loop] at h
    cases hstep : iteration f sshClient localListener (env k) st with
    | next st' =>
      rw [hstep] at h
      obtain ⟨hinv', evs, htr, hevs⟩ :=
        iteration_preserves_DefersMatch f sshClient localListener (env k) st st'
          (Or.inl hstep) hinv
      refine ih (k + 1) st' tr hinv' ?_ h
      intro c hmem
      rw [htr] at hmem
      rcases List.mem_append.1 hmem with hm | hm
      · exact hnc c hm
      · exact hevs c hm
    | ret st' =>
      rw [hstep] at h
      obtain ⟨hinv', evs, htr, hevs⟩ :=
        iteration_preserves_DefersMatch f sshClient localListener (env k) st st'
          (Or.inr hstep) hinv
      simp only [RunResult.returned.injEq] at h
      refine ⟨st'.trace, ?_, ?_⟩
      · rw [← h, hinv', runDeferred_closeConns]
        simp [runDeferred]
      · intro c hmem
        rw [htr] at hmem
        rcases List.mem_append.1 hmem with hm | hm
        · exact hnc c hm
        · exact hevs c hm
    | panic st' =>
      rw [hstep] at h
      simp at h
    | blocked st' =>
      rw [hstep] at h
      simp at h

/-- Whenever `run` returns, its trace ends with the deferred calls: a `Close` on every connection
that the loop has opened, last opened first, then the closes of the listener and of the SSH
session; no connection is closed before. -/
theorem run_returned_closes_everything (f : Forward) (sshClient : Client)
    (localListener : Listener) (env : Nat → IterEnv) (fuel : Nat) (tr : List Event)
    (h : run f sshClient localListener env fuel = .returned tr) :
    ∃ body, tr = body ++ (opened body).reverse.map Event.connClose ++
        [.listenerClose localListener, .clientClose sshClient] ∧
      ∀ c, Event.connClose c ∉ body :=
  loop_returned_closes_everything f sshClient localListener env fuel 0
    (initState sshClient localListener) tr (by simp [DefersMatch, initState, opened])
    (by simp [initState]) h


theorem goCopy_not_mem_reported (r : Option GoError) (pre : String) (a b : Conn) :
    Event.goCopy a b ∉ reported r pre := by
  cases r <;> simp [reported]

theorem state_sendErr (P : LoopState → Prop) (s : StopState) (received : Bool) (err : GoError)
    (st : LoopState) (k : LoopState → Step) (h₀ : P st)
    (h₁ : P (k { st with trace := st.trace ++ [.send err] }).state) :
    P (sendErr s received err st k).state := by
  unfold sendErr
  split_ifs
  · exact h₀
  · exact h₁
  · exact h₀

theorem state_reportIf (P : LoopState → Prop) (r : Option GoError) (s : StopState)
    (received : Bool) (pre : String) (st : LoopState) (k : LoopState → Step) (h₀ : P st)
    (h₁ : P (k { st with trace := st.trace ++ reported r pre }).state) :
    P (reportIf r s received pre st k).state := by
  cases r with
  | none => simpa [reportIf, reported] using h₁
  | some e => exact state_sendErr P s received _ st k h₀ (by simpa [reported] using h₁)

/-- However an iteration ends (next iteration, return, panic or blocked send): when the write
deadline call on the local connection has failed, the iteration has started no copying
goroutine. -/
theorem write_deadline_failure_always_skips_relay (f : Forward) (sshClient : Client)
    (localListener : Listener) (o : IterEnv) (st : LoopState) (err : GoError)
    (hw : o.localSetWriteDeadline = some err) :
    ∀ a b, Event.goCopy a b ∈ (iteration f sshClient localListener o st).state.trace →
      Event.goCopy a b ∈ st.trace := by
  simp only [iteration, buildLocalConnection, LoopState.log, LoopState.defer, handleForward, hw]
  cases o.dial with
  | err e =>
    refine state_sendErr (fun st' => ∀ a b, Event.goCopy a b ∈ st'.trace →
      Event.goCopy a b ∈ st.trace) _ _ _ _ _ ?_ ?_ <;>
      simp [Step.state]
  | ok endHostConn =>
    refine state_reportIf (fun st' => ∀ a b, Event.goCopy a b ∈ st'.trace →
      Event.goCopy a b ∈ st.trace) _ _ _ _ _ _ ?_ ?_
    · simp
    refine state_reportIf (fun st' => ∀ a b, Event.goCopy a b ∈ st'.trace →
      Event.goCopy a b ∈ st.trace) _ _ _ _ _ _ ?_ ?_
    · simp [goCopy_not_mem_reported]
    cases o.accept with
    | err e =>
      refine state_sendErr (fun st' => ∀ a b, Event.goCopy a b ∈ st'.trace →
        Event.goCopy a b ∈ st.trace) _ _ _ _ _ ?_ ?_ <;>
        simp [Step.state, goCopy_not_mem_reported]
    | ok localConn =>
      refine state_reportIf (fun st' => ∀ a b, Event.goCopy a b ∈ st'.trace →
        Event.goCopy a b ∈ st.trace) _ _ _ _ _ _ ?_ ?_
      · simp [goCopy_not_mem_reported]
      refine state_reportIf (fun st' => ∀ a b, Event.goCopy a b ∈ st'.trace →
        Event.goCopy a b ∈ st.trace) _ _ _ _ _ _ ?_ ?_
      · simp [goCopy_not_mem_reported]
      simp only
      split_ifs <;> simp [Step.state, goCopy_not_mem_reported]

/-- A copy that fails after twelve events of `run`, when the first pair is being relayed and the
second iteration has made its first deadline call, exits the process there: `run` does not go
on and no deferred call runs. -/
theorem process_exits_on_copy_error :
    process testForward ⟨0⟩ ⟨0⟩ (tcpChanWorld .live)
        (some ⟨12, true, .new "read tcp 127.0.0.1:2376: connection reset by peer"⟩) 2 =
      .exited
        (firstPairEvents testForward ⟨0⟩ ⟨0⟩ ++
          [.clientDial ⟨0⟩ "localhost:2376" (.ok ⟨2⟩),
           .setReadDeadline ⟨2⟩ (30 * second) (some tcpChanDeadline)])
        "io.Copy from localAddress -> remoteAddress failed: read tcp 127.0.0.1:2376: connection reset by peer" := by
  decide

/-- After `checkConfig` has passed, `NewForward` dereferences no nil pointer and indexes no empty
slice: it always returns. -/
theorem NewForward_returns (env : BootEnv) (config : Option Config) :
    ∃ t, (NewForward env config).1 = .returns t := by
  cases hc : checkConfig config with
  | some e => exact ⟨⟨none, none, some e⟩, by simp [NewForward, hc]⟩
  | none =>
    obtain ⟨c, rfl, hlen, hjumps, ⟨endHost, hend, -⟩, -, -⟩ := (checkConfig_eq_none_iff _).1 hc
    simp only [NewForward, hc, bootstrap, buildSSHClient, hend]
    rcases hconv : convertToSSHConfig env endHost [] with ⟨_ | _, tr₁⟩
    · simp only
      by_cases hpos : c.JumpHostConfigs.len > 0
      · simp only [hpos, if_true]
        cases hel : c.JumpHostConfigs.elems with
        | nil => simp [GoSlice.len, hel] at hpos
        | cons j rest =>
          obtain ⟨jumpHost, rfl, -⟩ := hjumps j (by simp [hel])
          simp only [List.head?_cons]
          rcases convertToSSHConfig env jumpHost tr₁ with ⟨_ | _, tr₂⟩
          · simp only
            cases env.sshDial jumpHost.Address _ with
            | err e => exact ⟨_, rfl⟩
            | ok jumpHostClient =>
              simp only [dialNextJump]
              cases env.jumpDial jumpHostClient endHost.Address with
              | connected conn =>
                simp only
                cases env.newClientConn conn endHost.Address _ with
                | err e => exact ⟨_, rfl⟩
                | ok client =>
                  simp only
                  cases env.netListen c.LocalAddress <;> exact ⟨_, rfl⟩
              | failed e => exact ⟨_, rfl⟩
              | timedOut => exact ⟨_, rfl⟩
          · exact ⟨_, rfl⟩
      · simp only [hpos, if_false]
        cases env.sshDial endHost.Address _ with
        | err e => exact ⟨_, rfl⟩
        | ok client =>
          simp only
          cases env.netListen c.LocalAddress <;> exact ⟨_, rfl⟩
    · exact ⟨_, rfl⟩

end GoSSHForward
